import Mathlib

/-!
Shallow embedding of the vitabench evaluator, metrics and domain tools,
with theorems settling the specification claims about them.

Python floats that only ever hold small decimal literals and results of
field arithmetic on them are embedded as rationals (`ℚ`); Python ints as
`ℕ`/`ℤ`.  The SHA-256 digest from `hashlib` (Python standard library,
outside the repository) is an abstract parameter `String → String`.
Randomness (`random.choice`) is embedded by quantifying over the function
that selects, for each failure, an index into the list of successes.
-/

namespace Vita

/-! ## Judge-panel evaluator (src/vita/evaluator/evaluator.py) -/

/-- Modelled from the spec: the terminal states of a simulation
(`data_model/simulation.py` is not part of the provided sources; spec §4.2
lists `COMPLETED | TOO_MANY_ERRORS | MAX_STEPS | INVALID_AGENT_MESSAGE |
USER_STOP | AGENT_STOP`). -/
inductive TerminationReason
  | completed
  | tooManyErrors
  | maxSteps
  | invalidAgentMessage
  | userStop
  | agentStop
deriving DecidableEq, Repr

/-- `simulation.termination_reason in {TOO_MANY_ERRORS, MAX_STEPS,
INVALID_AGENT_MESSAGE}` (evaluator.py lines 97-101). -/
def prematureTermination : TerminationReason → Bool
  | .tooManyErrors => true
  | .maxSteps => true
  | .invalidAgentMessage => true
  | _ => false

/-- `_vote_from_reward`: `1 if reward >= 0.5 else 0` (evaluator.py line 63). -/
def voteFromReward (r : ℚ) : ℕ :=
  if r ≥ 1 / 2 then 1 else 0

/-- `_call_with_retries` (evaluator.py lines 67-82): try `attempt` up to the
given number of times, returning the first successful result together with
the (1-based) attempt index; `none` models exhausting all retries.  The
judge call is embedded as `attempt : ℕ → Option ℚ`, the reward a given
(0-based) attempt would produce, `none` modelling a thrown exception. -/
def callFrom (attempt : ℕ → Option ℚ) : ℕ → ℕ → Option (ℚ × ℕ)
  | _, 0 => none
  | i, n + 1 =>
    match attempt i with
    | some r => some (r, i + 1)
    | none => callFrom attempt (i + 1) n

/-- `_call_with_retries(fn, retries=3, ...)` starting at the first attempt. -/
def callWithRetries (attempt : ℕ → Option ℚ) (retries : ℕ) : Option (ℚ × ℕ) :=
  callFrom attempt 0 retries

/-- One judge's outcome after the retry loop: the reward of the first
successful attempt, `none` after all 3 attempts failed (evaluator.py
line 143: `retries=3`). -/
def judgeOutcome (attempt : ℕ → Option ℚ) : Option ℚ :=
  (callWithRetries attempt 3).map Prod.fst

/-- The `successes` list (evaluator.py lines 129, 170-171): the rewards of
the judges that returned, in panel order (the collection loop at lines
167-207 walks `llm_evaluators` in order for both execution paths). -/
def successRewards (outcomes : List (Option ℚ)) : List ℚ :=
  outcomes.filterMap id

/-- The final-vote loop (evaluator.py lines 228-258): a successful judge
contributes its own vote; for the `k`-th failed judge `random.choice`
picks the success at index `pick k` and its vote is adopted. -/
def finalVotesAux (succ : List ℚ) (pick : ℕ → ℕ) :
    List (Option ℚ) → ℕ → List ℕ
  | [], _ => []
  | some r :: rest, k => voteFromReward r :: finalVotesAux succ pick rest k
  | none :: rest, k =>
      voteFromReward (succ.getD (pick k) 0) :: finalVotesAux succ pick rest (k + 1)

/-- The list `final_votes` built by evaluator.py lines 225-258. -/
def finalVotes (outcomes : List (Option ℚ)) (pick : ℕ → ℕ) : List ℕ :=
  finalVotesAux (successRewards outcomes) pick outcomes 0

/-- `majority_vote = 1 if sum(final_votes) > (len(final_votes) // 2) else 0`
(evaluator.py line 260). -/
def majorityVote (votes : List ℕ) : ℕ :=
  if votes.sum > votes.length / 2 then 1 else 0

/-- The observable result of `evaluate_simulation`:
* `earlyReward`: the two early `return RewardInfo(...)` paths (lines 102, 109);
* `invalidPanel`: the `ValueError`s on panel size (lines 123-126);
* `aborted`: `raise EvaluationAbortedError` (line 216);
* `noChosen`: `StopIteration` from the `next(...)` search (line 261), shown
  unreachable;
* `final reward votes majority chosenReward`: the returned record, whose
  `reward` was overwritten with `float(majority_vote)` (line 271);
  `chosenReward` is the chosen success's original reward. -/
inductive EvalResult
  | earlyReward (reward : ℚ)
  | invalidPanel
  | aborted
  | noChosen
  | final (reward : ℚ) (votes : List ℕ) (majority : ℕ) (chosenReward : ℚ)
deriving DecidableEq, Repr

/-- The inputs of `evaluate_simulation` that its result depends on:
the termination reason, whether `task.evaluation_criteria` is present, and
each panel judge's outcome after retries (in `llm_evaluators` order). -/
structure EvalInput where
  termination : TerminationReason
  hasCriteria : Bool
  outcomes : List (Option ℚ)

/-- `evaluate_simulation` (evaluator.py lines 84-287), from the point where
each judge's retried outcome is known.  `pick k` is the index into
`successes` drawn by `random.choice` for the `k`-th failure. -/
def evaluateSimulation (inp : EvalInput) (pick : ℕ → ℕ) : EvalResult :=
  if prematureTermination inp.termination then .earlyReward 0
  else if inp.hasCriteria = false then .earlyReward 1
  else if inp.outcomes.length < 1 ∨ inp.outcomes.length % 2 = 0 then .invalidPanel
  else if (successRewards inp.outcomes).length = 0 then .aborted
  else
    let votes := finalVotes inp.outcomes pick
    let m := majorityVote votes
    match (successRewards inp.outcomes).find? (fun r => voteFromReward r == m) with
    | none => .noChosen
    | some r => .final (m : ℚ) votes m r

/-- Count of failed judges among the first `i` outcomes. -/
def failuresBefore (outcomes : List (Option ℚ)) (i : ℕ) : ℕ :=
  (outcomes.take i).countP (fun o => o.isNone)

/-- Spec-side description of the `i`-th final vote: a successful judge's own
vote, and for a failed judge the vote of the success selected for it (the
`i`-th judge being the `failuresBefore i`-th failure). -/
def expectedVote (outcomes : List (Option ℚ)) (pick : ℕ → ℕ) (i : ℕ) : ℕ :=
  match outcomes.getD i none with
  | some r => voteFromReward r
  | none =>
      voteFromReward
        ((successRewards outcomes).getD (pick (failuresBefore outcomes i)) 0)

/-! ### Supporting lemmas about the evaluator embedding -/

lemma voteFromReward_le_one (r : ℚ) : voteFromReward r ≤ 1 := by
  unfold voteFromReward
  split <;> decide

lemma getD_mem : ∀ (l : List α) (n : ℕ) (d : α), n < l.length → l.getD n d ∈ l
  | [], n, d, h => by simp at h
  | a :: l, 0, d, _ => by simp
  | a :: l, n + 1, d, h => by
    have := getD_mem l n d (by simpa using h)
    rw [List.getD_cons_succ]
    exact List.mem_cons_of_mem a this

lemma sum_eq_zero_of_all_zero : ∀ {l : List ℕ}, (∀ x ∈ l, x = 0) → l.sum = 0
  | [], _ => rfl
  | a :: l, h => by
    have ha := h a (List.mem_cons_self a l)
    have hl := sum_eq_zero_of_all_zero
      (l := l) (fun x hx => h x (List.mem_cons_of_mem a hx))
    simp [ha, hl]

lemma sum_eq_length_of_all_one : ∀ {l : List ℕ}, (∀ x ∈ l, x = 1) → l.sum = l.length
  | [], _ => rfl
  | a :: l, h => by
    have ha := h a (List.mem_cons_self a l)
    have hl := sum_eq_length_of_all_one
      (l := l) (fun x hx => h x (List.mem_cons_of_mem a hx))
    simp [ha, hl]
    omega

lemma finalVotesAux_length (succ : List ℚ) (pick : ℕ → ℕ) :
    ∀ (l : List (Option ℚ)) (k : ℕ), (finalVotesAux succ pick l k).length = l.length
  | [], _ => rfl
  | some _ :: rest, k => by
    simp [finalVotesAux, finalVotesAux_length succ pick rest k]
  | none :: rest, k => by
    simp [finalVotesAux, finalVotesAux_length succ pick rest (k + 1)]

lemma finalVotes_length (outcomes : List (Option ℚ)) (pick : ℕ → ℕ) :
    (finalVotes outcomes pick).length = outcomes.length :=
  finalVotesAux_length _ _ _ _

/-- A successful judge keeps its own vote. -/
lemma finalVotesAux_getD_some (succ : List ℚ) (pick : ℕ → ℕ) :
    ∀ (l : List (Option ℚ)) (k i : ℕ) (r : ℚ), l.getD i none = some r →
      (finalVotesAux succ pick l k).getD i 0 = voteFromReward r
  | [], k, i, r, h => by simp at h
  | some a :: rest, k, 0, r, h => by
    simp at h
    simp [finalVotesAux, h]
  | none :: rest, k, 0, r, h => by simp at h
  | some a :: rest, k, i + 1, r, h => by
    simp only [List.getD_cons_succ] at h
    simpa [finalVotesAux] using finalVotesAux_getD_some succ pick rest k i r h
  | none :: rest, k, i + 1, r, h => by
    simp only [List.getD_cons_succ] at h
    simpa [finalVotesAux] using finalVotesAux_getD_some succ pick rest (k + 1) i r h

/-- A failed judge adopts the vote of the success selected for it; the
`i`-th judge is the `countP isNone (take i l)`-th failure. -/
lemma finalVotesAux_getD_none (succ : List ℚ) (pick : ℕ → ℕ) :
    ∀ (l : List (Option ℚ)) (k i : ℕ), i < l.length → l.getD i none = none →
      (finalVotesAux succ pick l k).getD i 0 =
        voteFromReward
          (succ.getD (pick (k + (l.take i).countP (fun o => o.isNone))) 0)
  | [], k, i, h, _ => by simp at h
  | some a :: rest, k, 0, _, hnone => by simp at hnone
  | none :: rest, k, 0, _, _ => by simp [finalVotesAux]
  | some a :: rest, k, i + 1, h, hnone => by
    simp only [List.getD_cons_succ] at hnone
    have := finalVotesAux_getD_none succ pick rest k i (by simpa using h) hnone
    simpa [finalVotesAux, List.countP_cons] using this
  | none :: rest, k, i + 1, h, hnone => by
    simp only [List.getD_cons_succ] at hnone
    have ih := finalVotesAux_getD_none succ pick rest (k + 1) i (by simpa using h) hnone
    have harg : (k + 1) + (List.take i rest).countP (fun o => o.isNone)
        = k + ((none :: rest).take (i + 1)).countP (fun o => o.isNone) := by
      simp only [List.take_succ_cons, List.countP_cons, Option.isNone_none,
        if_true]
      omega
    simp only [finalVotesAux, List.getD_cons_succ]
    rw [ih, harg]

lemma finalVotes_getD (outcomes : List (Option ℚ)) (pick : ℕ → ℕ)
    (i : ℕ) (hi : i < outcomes.length) :
    (finalVotes outcomes pick).getD i 0 = expectedVote outcomes pick i := by
  unfold finalVotes expectedVote failuresBefore
  cases h : outcomes.getD i none with
  | some r => exact finalVotesAux_getD_some _ _ _ _ _ _ h
  | none => simpa using finalVotesAux_getD_none _ pick outcomes 0 i hi h

/-- Every final vote is the vote of some success. -/
lemma mem_finalVotesAux (succ : List ℚ) (pick : ℕ → ℕ)
    (hpick : ∀ k, pick k < succ.length) :
    ∀ (l : List (Option ℚ)) (k : ℕ), (∀ r : ℚ, some r ∈ l → r ∈ succ) →
      ∀ v ∈ finalVotesAux succ pick l k, ∃ r ∈ succ, voteFromReward r = v
  | [], _, _, v, hv => by simp [finalVotesAux] at hv
  | some a :: rest, k, hsub, v, hv => by
    simp only [finalVotesAux, List.mem_cons] at hv
    rcases hv with hv | hv
    · exact ⟨a, hsub a (by simp), hv.symm⟩
    · exact mem_finalVotesAux succ pick hpick rest k
        (fun r hr => hsub r (by simp [hr])) v hv
  | none :: rest, k, hsub, v, hv => by
    simp only [finalVotesAux, List.mem_cons] at hv
    rcases hv with hv | hv
    · exact ⟨succ.getD (pick k) 0, getD_mem succ (pick k) 0 (hpick k), hv.symm⟩
    · exact mem_finalVotesAux succ pick hpick rest (k + 1)
        (fun r hr => hsub r (by simp [hr])) v hv

lemma mem_successRewards_of_some {outcomes : List (Option ℚ)} {r : ℚ}
    (h : some r ∈ outcomes) : r ∈ successRewards outcomes :=
  List.mem_filterMap.2 ⟨some r, h, rfl⟩

lemma mem_finalVotes (outcomes : List (Option ℚ)) (pick : ℕ → ℕ)
    (hpick : ∀ k, pick k < (successRewards outcomes).length) :
    ∀ v ∈ finalVotes outcomes pick,
      ∃ r ∈ successRewards outcomes, voteFromReward r = v :=
  mem_finalVotesAux _ pick hpick outcomes 0 (fun _ h => mem_successRewards_of_some h)

/-- Integer strict majority agrees with the rational strict-`n/2` test. -/
lemma nat_half_lt_iff (s n : ℕ) : n / 2 < s ↔ (n : ℚ) / 2 < (s : ℚ) := by
  rw [Nat.div_lt_iff_lt_mul (by norm_num : 0 < 2), div_lt_iff₀ (by norm_num : (0:ℚ) < 2)]
  exact_mod_cast Iff.rfl

lemma majorityVote_eq_rat (votes : List ℕ) :
    majorityVote votes =
      if ((votes.sum : ℚ) > (votes.length : ℚ) / 2) then 1 else 0 := by
  unfold majorityVote
  by_cases h : votes.length / 2 < votes.sum
  · rw [if_pos h, if_pos ((nat_half_lt_iff _ _).1 h)]
  · rw [if_neg h, if_neg (fun hq => h ((nat_half_lt_iff _ _).2 hq))]

/-- The chosen-record search of evaluator.py line 261 always has a hit:
some success's vote equals the majority vote. -/
lemma exists_success_vote_eq_majority (outcomes : List (Option ℚ)) (pick : ℕ → ℕ)
    (hsucc : 0 < (successRewards outcomes).length)
    (hpick : ∀ k, pick k < (successRewards outcomes).length) :
    ∃ r ∈ successRewards outcomes,
      voteFromReward r = majorityVote (finalVotes outcomes pick) := by
  by_contra hno
  push_neg at hno
  have hlen : 0 < outcomes.length :=
    lt_of_lt_of_le hsucc (List.length_filterMap_le id outcomes)
  have hvlen : (finalVotes outcomes pick).length = outcomes.length :=
    finalVotes_length outcomes pick
  rcases Nat.lt_or_ge (finalVotes outcomes pick).sum
      ((finalVotes outcomes pick).length / 2 + 1) with hlo | hhi
  · -- majority vote is 0, so every success must vote 1, so every final vote
    -- is 1, making the sum the full length: strict majority, contradiction.
    have hm : majorityVote (finalVotes outcomes pick) = 0 := by
      unfold majorityVote
      rw [if_neg (by omega)]
    have hone : ∀ r ∈ successRewards outcomes, voteFromReward r = 1 := by
      intro r hr
      have := hno r hr
      rw [hm] at this
      have hle := voteFromReward_le_one r
      omega
    have hall : ∀ v ∈ finalVotes outcomes pick, v = 1 := by
      intro v hv
      obtain ⟨r, hr, hrv⟩ := mem_finalVotes outcomes pick hpick v hv
      rw [← hrv, hone r hr]
    have hsum := sum_eq_length_of_all_one hall
    have : (finalVotes outcomes pick).length / 2 < (finalVotes outcomes pick).length :=
      Nat.div_lt_self (by omega) (by omega)
    omega
  · -- majority vote is 1, so every success must vote 0, so every final vote
    -- is 0, making the sum zero: contradiction with the strict majority.
    have hm : majorityVote (finalVotes outcomes pick) = 1 := by
      unfold majorityVote
      rw [if_pos (by omega)]
    have hzero : ∀ r ∈ successRewards outcomes, voteFromReward r = 0 := by
      intro r hr
      have := hno r hr
      rw [hm] at this
      have hle := voteFromReward_le_one r
      omega
    have hall : ∀ v ∈ finalVotes outcomes pick, v = 0 := by
      intro v hv
      obtain ⟨r, hr, hrv⟩ := mem_finalVotes outcomes pick hpick v hv
      rw [← hrv, hzero r hr]
    have hsum := sum_eq_zero_of_all_zero hall
    omega

/-- Under the hypotheses of the panel stage, `evaluateSimulation` reaches the
final branch and returns `float(majority_vote)` as the reward. -/
lemma evaluateSimulation_final (inp : EvalInput) (pick : ℕ → ℕ)
    (hterm : prematureTermination inp.termination = false)
    (hcrit : inp.hasCriteria = true)
    (hodd : inp.outcomes.length % 2 = 1)
    (hsucc : 0 < (successRewards inp.outcomes).length)
    (hpick : ∀ k, pick k < (successRewards inp.outcomes).length) :
    ∃ c, c ∈ successRewards inp.outcomes ∧
      voteFromReward c = majorityVote (finalVotes inp.outcomes pick) ∧
      evaluateSimulation inp pick =
        .final ((majorityVote (finalVotes inp.outcomes pick) : ℕ) : ℚ)
          (finalVotes inp.outcomes pick)
          (majorityVote (finalVotes inp.outcomes pick)) c := by
  obtain ⟨r, hr, hrv⟩ := exists_success_vote_eq_majority inp.outcomes pick hsucc hpick
  have hpanel : ¬(inp.outcomes.length < 1 ∨ inp.outcomes.length % 2 = 0) := by
    rintro (h | h) <;> omega
  unfold evaluateSimulation
  rw [hterm, hcrit]
  simp only [Bool.false_eq_true, if_false, if_neg hpanel, if_neg (by omega :
    ¬(successRewards inp.outcomes).length = 0)]
  cases hfind : (successRewards inp.outcomes).find?
      (fun x => voteFromReward x == majorityVote (finalVotes inp.outcomes pick)) with
  | none =>
    exfalso
    have := List.find?_eq_none.1 hfind r hr
    simp [hrv] at this
  | some c =>
    have hcmem := List.find?_some hfind
    refine ⟨c, List.mem_of_find?_eq_some hfind, by simpa using hcmem, rfl⟩

/-! ### Claim theorems for the evaluator -/

/-- **C1.** When at least one judge succeeds, every failed judge's final vote
is the vote of the success drawn for it (`pick` ranging over all selection
functions embeds `random.choice` from the successes), the panel produces one
final vote per judge, the majority vote is `1` iff the sum of the `n` final
votes strictly exceeds `n/2`, and the returned reward is exactly
`float(majority_vote)`. -/
theorem evaluate_simulation_replacement_and_majority
    (inp : EvalInput) (pick : ℕ → ℕ)
    (hterm : prematureTermination inp.termination = false)
    (hcrit : inp.hasCriteria = true)
    (hodd : inp.outcomes.length % 2 = 1)
    (hsucc : 0 < (successRewards inp.outcomes).length)
    (hpick : ∀ k, pick k < (successRewards inp.outcomes).length) :
    (finalVotes inp.outcomes pick).length = inp.outcomes.length ∧
    (∀ i, i < inp.outcomes.length →
      (finalVotes inp.outcomes pick).getD i 0 = expectedVote inp.outcomes pick i) ∧
    majorityVote (finalVotes inp.outcomes pick) =
      (if ((finalVotes inp.outcomes pick).sum : ℚ) > (inp.outcomes.length : ℚ) / 2
        then 1 else 0) ∧
    (∃ c, evaluateSimulation inp pick =
      .final ((majorityVote (finalVotes inp.outcomes pick) : ℕ) : ℚ)
        (finalVotes inp.outcomes pick)
        (majorityVote (finalVotes inp.outcomes pick)) c) := by
  obtain ⟨c, _, _, hres⟩ := evaluateSimulation_final inp pick hterm hcrit hodd hsucc hpick
  refine ⟨finalVotes_length _ _, fun i hi => finalVotes_getD _ _ i hi, ?_, c, hres⟩
  rw [majorityVote_eq_rat, finalVotes_length]

/-- Witness for C1: a 3-judge panel with rewards `0.9`, a failure replaced by
the first success, and `0.4`. -/
theorem evaluate_simulation_replacement_and_majority_witness :
    (finalVotes [some (9/10 : ℚ), none, some (2/5)] (fun _ => 0)).length = 3 ∧
    (∀ i, i < 3 →
      (finalVotes [some (9/10 : ℚ), none, some (2/5)] (fun _ => 0)).getD i 0 =
        expectedVote [some (9/10 : ℚ), none, some (2/5)] (fun _ => 0) i) ∧
    majorityVote (finalVotes [some (9/10 : ℚ), none, some (2/5)] (fun _ => 0)) =
      (if ((finalVotes [some (9/10 : ℚ), none, some (2/5)] (fun _ => 0)).sum : ℚ) >
          (3 : ℚ) / 2 then 1 else 0) ∧
    (∃ c, evaluateSimulation ⟨.completed, true, [some (9/10 : ℚ), none, some (2/5)]⟩
        (fun _ => 0) =
      .final ((majorityVote (finalVotes [some (9/10 : ℚ), none, some (2/5)]
            (fun _ => 0)) : ℕ) : ℚ)
        (finalVotes [some (9/10 : ℚ), none, some (2/5)] (fun _ => 0))
        (majorityVote (finalVotes [some (9/10 : ℚ), none, some (2/5)] (fun _ => 0)))
        c) :=
  evaluate_simulation_replacement_and_majority
    ⟨.completed, true, [some (9/10 : ℚ), none, some (2/5)]⟩ (fun _ => 0)
    rfl rfl (by decide) (by decide) (fun _ => Nat.succ_pos 1)

/-- **C2 counterexample.** A simulation that ended in `MAX_STEPS` while the
task has no evaluation criteria: the premature-termination branch fires
first, so the evaluator returns reward `0.0`, not the `1.0` the claim
promises for a missing `evaluation_criteria`. -/
theorem evaluate_simulation_premature_overrides_no_criteria :
    evaluateSimulation ⟨.maxSteps, false, []⟩ (fun _ => 0) = .earlyReward 0 ∧
    evaluateSimulation ⟨.maxSteps, false, []⟩ (fun _ => 0) ≠ .earlyReward 1 := by
  decide

/-- **C2 (amended).** A premature termination (`TOO_MANY_ERRORS`, `MAX_STEPS`
or `INVALID_AGENT_MESSAGE`) yields reward exactly `0.0`, and a task without
evaluation criteria yields reward exactly `1.0` provided the termination was
not premature; in both cases the result is independent of the judges'
outcomes and of the random selection, i.e. no judge is consulted. -/
theorem evaluate_simulation_early_returns
    (t : TerminationReason) (c : Bool) (outs outs' : List (Option ℚ))
    (pick pick' : ℕ → ℕ) :
    (prematureTermination t = true →
      evaluateSimulation ⟨t, c, outs⟩ pick = .earlyReward 0 ∧
      evaluateSimulation ⟨t, c, outs⟩ pick = evaluateSimulation ⟨t, c, outs'⟩ pick') ∧
    (prematureTermination t = false → c = false →
      evaluateSimulation ⟨t, c, outs⟩ pick = .earlyReward 1 ∧
      evaluateSimulation ⟨t, c, outs⟩ pick = evaluateSimulation ⟨t, c, outs'⟩ pick') := by
  constructor
  · intro h
    constructor <;> simp [evaluateSimulation, h]
  · intro h hc
    constructor <;> simp [evaluateSimulation, h, hc]

/-- Witness for the amended C2, at one premature input and one
missing-criteria input. -/
theorem evaluate_simulation_early_returns_witness :
    evaluateSimulation ⟨.maxSteps, true, [some 1]⟩ (fun _ => 0) = .earlyReward 0 ∧
    evaluateSimulation ⟨.completed, false, [some 1]⟩ (fun _ => 0) = .earlyReward 1 :=
  ⟨((evaluate_simulation_early_returns .maxSteps true [some 1] []
      (fun _ => 0) (fun _ => 0)).1 rfl).1,
    ((evaluate_simulation_early_returns .completed false [some 1] []
      (fun _ => 0) (fun _ => 0)).2 rfl rfl).1⟩

/-- **C3.** When every judge in the (odd-sized) panel fails each of its 3
retry attempts, `evaluate_simulation` raises `EvaluationAbortedError` and
returns no default or fallback reward. -/
theorem evaluate_simulation_all_judges_failed_aborts
    (t : TerminationReason) (atts : List (ℕ → Option ℚ)) (pick : ℕ → ℕ)
    (hterm : prematureTermination t = false)
    (hodd : atts.length % 2 = 1)
    (hfail : ∀ att ∈ atts, ∀ i, i < 3 → att i = none) :
    evaluateSimulation ⟨t, true, atts.map judgeOutcome⟩ pick = .aborted := by
  have hout : ∀ o ∈ atts.map judgeOutcome, o = none := by
    intro o ho
    obtain ⟨att, hatt, rfl⟩ := List.mem_map.1 ho
    have h0 := hfail att hatt 0 (by omega)
    have h1 := hfail att hatt 1 (by omega)
    have h2 := hfail att hatt 2 (by omega)
    simp [judgeOutcome, callWithRetries, callFrom, h0, h1, h2]
  have hsucc : successRewards (atts.map judgeOutcome) = [] := by
    unfold successRewards
    rw [List.filterMap_eq_nil_iff]
    intro o ho
    simp [hout o ho]
  have hlen : (atts.map judgeOutcome).length = atts.length := List.length_map _ _
  unfold evaluateSimulation
  rw [hterm]
  simp only [Bool.false_eq_true, if_false]
  rw [if_neg (by simp), if_neg (by rw [hlen]; omega)]
  rw [if_pos (by rw [hsucc]; rfl)]

/-- Witness for C3: a single judge whose every attempt throws. -/
theorem evaluate_simulation_all_judges_failed_aborts_witness :
    evaluateSimulation
      ⟨.completed, true, List.map judgeOutcome [fun _ => (none : Option ℚ)]⟩
      (fun _ => 0) = .aborted :=
  evaluate_simulation_all_judges_failed_aborts .completed
    [fun _ => (none : Option ℚ)] (fun _ => 0) rfl (by decide)
    (by
      intro att hatt i _
      rw [List.mem_singleton] at hatt
      rw [hatt])

/-- **C10.** Whenever at least one judge succeeds, the majority vote equals
the extracted vote of at least one successful judge, so the search for the
chosen success record is total: the evaluator reaches the `final` branch and
never fails with an empty search. -/
theorem evaluate_simulation_chosen_success_total
    (inp : EvalInput) (pick : ℕ → ℕ)
    (hterm : prematureTermination inp.termination = false)
    (hcrit : inp.hasCriteria = true)
    (hodd : inp.outcomes.length % 2 = 1)
    (hsucc : 0 < (successRewards inp.outcomes).length)
    (hpick : ∀ k, pick k < (successRewards inp.outcomes).length) :
    (∃ r ∈ successRewards inp.outcomes,
      voteFromReward r = majorityVote (finalVotes inp.outcomes pick)) ∧
    (∃ r votes m c, evaluateSimulation inp pick = .final r votes m c) ∧
    evaluateSimulation inp pick ≠ .noChosen := by
  obtain ⟨c, hcmem, hcvote, hres⟩ :=
    evaluateSimulation_final inp pick hterm hcrit hodd hsucc hpick
  exact ⟨⟨c, hcmem, hcvote⟩, ⟨_, _, _, c, hres⟩, by rw [hres]; simp⟩

/-- Witness for C10: a 3-judge panel whose two successes vote oppositely. -/
theorem evaluate_simulation_chosen_success_total_witness :
    (∃ r ∈ successRewards [some (1/5 : ℚ), none, some (7/10)],
      voteFromReward r =
        majorityVote (finalVotes [some (1/5 : ℚ), none, some (7/10)] (fun _ => 1))) ∧
    (∃ r votes m c,
      evaluateSimulation ⟨.completed, true, [some (1/5 : ℚ), none, some (7/10)]⟩
        (fun _ => 1) = .final r votes m c) ∧
    evaluateSimulation ⟨.completed, true, [some (1/5 : ℚ), none, some (7/10)]⟩
      (fun _ => 1) ≠ .noChosen :=
  evaluate_simulation_chosen_success_total
    ⟨.completed, true, [some (1/5 : ℚ), none, some (7/10)]⟩ (fun _ => 1)
    rfl rfl (by decide) (by decide) (fun _ => Nat.lt_succ_self 1)

/-! ## Metrics (src/vita/metrics/agent_metrics.py) -/

/-- `pass_hat_k` (agent_metrics.py lines 52-65): raises `ValueError` when
`num_trials < k`, else returns `math.comb(success_count, k) /
math.comb(num_trials, k)`. -/
def pass_hat_k (numTrials successCount k : ℕ) : Except String ℚ :=
  if numTrials < k then
    .error "Number of trials is less than k."
  else
    .ok ((successCount.choose k : ℚ) / (numTrials.choose k : ℚ))

/-- `pass_at_k` (agent_metrics.py lines 68-92). -/
def pass_at_k (numTrials successCount k : ℕ) : ℚ :=
  if numTrials < k then 0
  else if successCount > numTrials then 0
  else if numTrials - successCount ≥ k then
    1 - (((numTrials - successCount).choose k : ℚ) / (numTrials.choose k : ℚ))
  else 1

/-- **C5.** For a task with `n` trials, `c ≤ n` successes and `1 ≤ k`:
`pass_hat_k` equals `C(c,k)/C(n,k)` for `k ≤ n` and raises when `n < k`;
`pass_at_k` equals `1 - C(n-c,k)/C(n,k)` when `n - c ≥ k`, equals `1.0` when
`n ≥ k > n - c`, and equals `0.0` when `n < k`. -/
theorem pass_hat_and_pass_at_formulas (n c k : ℕ) (hc : c ≤ n) (_hk : 1 ≤ k) :
    (k ≤ n → pass_hat_k n c k = .ok ((c.choose k : ℚ) / (n.choose k : ℚ))) ∧
    (n < k → ∃ msg, pass_hat_k n c k = .error msg) ∧
    (k ≤ n - c → pass_at_k n c k =
      1 - (((n - c).choose k : ℚ) / (n.choose k : ℚ))) ∧
    (k ≤ n → n - c < k → pass_at_k n c k = 1) ∧
    (n < k → pass_at_k n c k = 0) := by
  refine ⟨fun hkn => ?_, fun hnk => ?_, fun hnc => ?_, fun hkn hnc => ?_,
    fun hnk => ?_⟩
  · rw [pass_hat_k, if_neg (by omega)]
  · exact ⟨_, by rw [pass_hat_k, if_pos hnk]⟩
  · rw [pass_at_k, if_neg (by omega), if_neg (by omega), if_pos (by omega)]
  · rw [pass_at_k, if_neg (by omega), if_neg (by omega), if_neg (by omega)]
  · rw [pass_at_k, if_pos hnk]

/-- Witness for C5 at `n = 3`, `c = 2`, `k = 2`. -/
theorem pass_hat_and_pass_at_formulas_witness :
    pass_hat_k 3 2 2 = .ok (1 / 3) ∧ pass_at_k 3 2 2 = 1 := by
  obtain ⟨h1, -, -, h4, -⟩ :=
    pass_hat_and_pass_at_formulas 3 2 2 (by decide) (by decide)
  refine ⟨?_, h4 (by decide) (by decide)⟩
  rw [h1 (by decide)]
  norm_num [Nat.choose]

/-! ## Delivery time formula (src/vita/domains/delivery/tools.py lines 135-139) -/

/-- Python `int(x)`: truncation toward zero. -/
def pyInt (q : ℚ) : ℤ :=
  if 0 ≤ q then ⌊q⌋ else ⌈q⌉

/-- Python `round(x, 0)` on an exact rational value: round half to even. -/
def roundHalfEven (q : ℚ) : ℤ :=
  let f := ⌊q⌋
  let r := q - (f : ℚ)
  if r < 1 / 2 then f
  else if r > 1 / 2 then f + 1
  else if f % 2 = 0 then f
  else f + 1

/-- `delivery_distance_to_time`:
`return round(25.00 + int(distance) * 0.006510, 0)`. -/
def delivery_distance_to_time (distance : ℚ) : ℚ :=
  (roundHalfEven (25 + (pyInt distance : ℚ) * (6510 / 1000000)) : ℚ)

/-- The formula as the spec words it: `round(25.00 + distance*0.006510)`
applied to the given distance itself. -/
def deliveryTimeFormulaSpec (distance : ℚ) : ℚ :=
  (roundHalfEven (25 + distance * (6510 / 1000000)) : ℚ)

/-- **C9 counterexample.** At distance `76.9` the code truncates the distance
to `76` before applying the linear formula and answers `25`, while the
claimed formula applied to the given distance answers `26`. -/
theorem delivery_distance_to_time_truncates_counterexample :
    delivery_distance_to_time (769 / 10) = 25 ∧
    deliveryTimeFormulaSpec (769 / 10) = 26 ∧
    delivery_distance_to_time (769 / 10) ≠ deliveryTimeFormulaSpec (769 / 10) := by
  refine ⟨?_, ?_, ?_⟩ <;> norm_num [delivery_distance_to_time,
    deliveryTimeFormulaSpec, pyInt, roundHalfEven]

/-- **C9 (amended).** `delivery_distance_to_time(d)` returns
`round(25.00 + int(d)*0.006510, 0)`: the fixed linear formula with the
literal constants `25.00` and `0.006510` is applied to the integer
truncation of the distance, so it agrees with the claimed formula exactly
on integer-valued distances. -/
theorem delivery_distance_to_time_eq_formula_on_trunc (d : ℚ) (z : ℤ) :
    delivery_distance_to_time d = deliveryTimeFormulaSpec ((pyInt d : ℤ) : ℚ) ∧
    delivery_distance_to_time (z : ℚ) = deliveryTimeFormulaSpec (z : ℚ) := by
  have hint : ∀ w : ℤ, pyInt (w : ℚ) = w := by
    intro w
    rcases le_or_lt 0 w with h | h
    · rw [pyInt, if_pos (by exact_mod_cast h)]
      exact Int.floor_intCast w
    · rw [pyInt, if_neg (by exact_mod_cast not_le.2 h)]
      exact Int.ceil_intCast w
  constructor
  · rfl
  · rw [delivery_distance_to_time, deliveryTimeFormulaSpec, hint z]

/-! ## Order-ID assignment (src/vita/environment/db.py, DB.assign_order_id) -/

/-- One entry of the `scenario_configs` table (db.py lines 63-104):
hash-input leading marker, order-id leading marker, required parameters. -/
structure ScenarioConfig where
  hashPfx : String
  idPfx : String
  params : List String
deriving DecidableEq, Repr

/-- The `scenario_configs` dictionary (db.py lines 63-104); `none` models
`scenario not in scenario_configs` → `ValueError` (lines 106-107). -/
def scenarioConfigs : String → Option ScenarioConfig
  | "delivery" => some ⟨"#DELIVERY#", "OT", ["user_id"]⟩
  | "hotel" => some ⟨"#HOTEL#", "OO", ["hotel_id", "product_id", "user_id"]⟩
  | "attraction" => some ⟨"#ATTRACTION#", "OO", ["user_id"]⟩
  | "flight" => some ⟨"#FLIGHT#", "OO", ["user_id"]⟩
  | "train" => some ⟨"#TRAIN#", "OO", ["user_id"]⟩
  | "instore" => some ⟨"#INSTORE#", "OI", []⟩
  | "instore_book" => some ⟨"#INSTORE_BOOK#", "OI", []⟩
  | "instore_reservation" => some ⟨"#INSTORE_RESV#", "OI", []⟩
  | _ => none

/-- The value a required parameter resolves to: `user_id` comes from the
positional argument, anything else from `kwargs` (db.py lines 115-121). -/
def paramValue (userId : String) (kwargs : List (String × String))
    (p : String) : Option String :=
  if p = "user_id" then some userId else kwargs.lookup p

/-- Concatenation of a list of strings, in order. -/
def concatAll : List String → String
  | [] => ""
  | s :: rest => s ++ concatAll rest

/-- The `hash_input` accumulation loop (db.py lines 114-121), raising
`ValueError` on the first missing required parameter. -/
def buildHashInput (userId : String) (kwargs : List (String × String)) :
    List String → String → Except String String
  | [], acc => .ok acc
  | p :: rest, acc =>
    match paramValue userId kwargs p with
    | some v => buildHashInput userId kwargs rest (acc ++ v)
    | none => .error ("Missing required parameter: " ++ p)

/-- `DB.assign_order_id` (db.py lines 49-125).  `sha256hex` abstracts
`get_hash` = `hashlib.sha256(s.encode()).hexdigest()` (utils/utils.py lines
44-54, delegating to the Python standard library) and `timestamp` abstracts
`str(datetime.now().timestamp())` (db.py line 123); the id is the id marker
followed by the first ten characters of the hex digest (line 124). -/
def assign_order_id (sha256hex : String → String) (timestamp : String)
    (scenario userId : String) (kwargs : List (String × String)) :
    Except String String :=
  match scenarioConfigs scenario with
  | none => .error ("Unsupported scenario type: " ++ scenario)
  | some cfg =>
    match buildHashInput userId kwargs cfg.params cfg.hashPfx with
    | .error e => .error e
    | .ok hashInput => .ok (cfg.idPfx ++ (sha256hex (hashInput ++ timestamp)).take 10)

lemma buildHashInput_ok (userId : String) (kwargs : List (String × String)) :
    ∀ (ps : List String) (acc : String),
      (∀ p ∈ ps, (paramValue userId kwargs p).isSome) →
      buildHashInput userId kwargs ps acc =
        .ok (acc ++ concatAll (ps.map (fun p => (paramValue userId kwargs p).getD "")))
  | [], acc, _ => by simp [buildHashInput, concatAll]
  | p :: rest, acc, hall => by
    have hp := hall p (List.mem_cons_self p rest)
    cases hv : paramValue userId kwargs p with
    | none => rw [hv] at hp; simp at hp
    | some v =>
      have ih := buildHashInput_ok userId kwargs rest (acc ++ v)
        (fun x hx => hall x (List.mem_cons_of_mem p hx))
      simp only [buildHashInput, hv, ih, List.map_cons, concatAll, Option.getD_some]
      rw [String.append_assoc]

lemma buildHashInput_error (userId : String) (kwargs : List (String × String)) :
    ∀ (ps : List String) (acc : String),
      (∃ p ∈ ps, paramValue userId kwargs p = none) →
      ∃ e, buildHashInput userId kwargs ps acc = .error e
  | [], _, hex => by simp at hex
  | p :: rest, acc, hex => by
    cases hv : paramValue userId kwargs p with
    | none =>
      exact ⟨"Missing required parameter: " ++ p, by simp [buildHashInput, hv]⟩
    | some v =>
      obtain ⟨q, hq, hqv⟩ := hex
      rcases List.mem_cons.1 hq with rfl | hq'
      · rw [hv] at hqv; simp at hqv
      · obtain ⟨e, he⟩ := buildHashInput_error userId kwargs rest (acc ++ v) ⟨q, hq', hqv⟩
        exact ⟨e, by simp [buildHashInput, hv, he]⟩

/-- **C4.** Whenever the scenario is known and all its required parameters
resolve, the assigned order id is the scenario's id marker followed by the
first ten hex characters of `sha256` of: the scenario's hash marker, the
required parameters concatenated in order, and the current timestamp; a
missing required parameter raises `ValueError`.  In particular the delivery
scenario uses id marker `OT`, hash marker `#DELIVERY#` and parameter
`user_id`. -/
theorem assign_order_id_spec (sha256hex : String → String)
    (ts scenario userId : String) (kwargs : List (String × String))
    (cfg : ScenarioConfig) (hcfg : scenarioConfigs scenario = some cfg) :
    ((∀ p ∈ cfg.params, (paramValue userId kwargs p).isSome) →
      assign_order_id sha256hex ts scenario userId kwargs =
        .ok (cfg.idPfx ++ (sha256hex (cfg.hashPfx ++
          concatAll (cfg.params.map
            (fun p => (paramValue userId kwargs p).getD "")) ++ ts)).take 10)) ∧
    ((∃ p ∈ cfg.params, paramValue userId kwargs p = none) →
      ∃ e, assign_order_id sha256hex ts scenario userId kwargs = .error e) ∧
    scenarioConfigs "delivery" = some ⟨"#DELIVERY#", "OT", ["user_id"]⟩ ∧
    assign_order_id sha256hex ts "delivery" userId kwargs =
      .ok ("OT" ++ (sha256hex ("#DELIVERY#" ++ userId ++ ts)).take 10) := by
  refine ⟨fun hall => ?_, fun hex => ?_, rfl, rfl⟩
  · simp only [assign_order_id, hcfg,
      buildHashInput_ok userId kwargs cfg.params cfg.hashPfx hall]
  · obtain ⟨e, he⟩ := buildHashInput_error userId kwargs cfg.params cfg.hashPfx hex
    exact ⟨e, by simp only [assign_order_id, hcfg, he]⟩

/-- Witness for C4: the hotel scenario with its three parameters present,
the digest abstracted by the identity function. -/
theorem assign_order_id_spec_witness :
    assign_order_id (fun s => s) "1700.5" "hotel" "U9"
        [("hotel_id", "H1"), ("product_id", "P2")] =
      .ok ("OO" ++ ("#HOTEL#" ++
        concatAll ["H1", "P2", "U9"] ++ "1700.5").take 10) ∧
    (∃ e, assign_order_id (fun s => s) "1700.5" "hotel" "U9" [] = .error e) := by
  refine ⟨?_, ?_⟩
  · have h := (assign_order_id_spec (fun s => s) "1700.5" "hotel" "U9"
      [("hotel_id", "H1"), ("product_id", "P2")] ⟨"#HOTEL#", "OO",
        ["hotel_id", "product_id", "user_id"]⟩ rfl).1 (by decide)
    exact h
  · exact (assign_order_id_spec (fun s => s) "1700.5" "hotel" "U9" []
      ⟨"#HOTEL#", "OO", ["hotel_id", "product_id", "user_id"]⟩ rfl).2.1
      ⟨"hotel_id", by decide⟩

/-! ## Domain data model (src/vita/data_model/tasks.py, domains/ota and
domains/delivery data models) -/

/-- `OrderStatus` literal (tasks.py lines 305-313). -/
inductive OrderStatus
  | unpaid
  | paid
  | unconsumed
  | consumed
  | processed
  | inProgress
  | delivered
  | cancelled
deriving DecidableEq, Repr

/-- A product line (`ProductBaseModel` subclasses): id, price, quantity,
plus the `date` and the room/seat/ticket-type string (field `ptype`) carried
by the OTA subclasses; delivery products leave `date` empty and use `ptype`
for their attribute string. -/
structure Product where
  product_id : String
  price : ℚ
  quantity : ℤ
  date : String
  ptype : String
deriving DecidableEq, Repr, Inhabited

/-- `Order` (tasks.py lines 386-403), restricted to the fields the embedded
tools read or write. -/
structure Order where
  order_id : String
  order_type : String
  user_id : String
  store_id : String
  note : String
  total_price : ℚ
  create_time : String
  update_time : String
  status : OrderStatus
  products : List Product
deriving DecidableEq, Repr

/-- A store-like entity (Hotel / Attraction / Flight / Train): only its
product catalog matters to the embedded tools. -/
structure Store where
  products : List Product
deriving DecidableEq, Repr

/-- The per-simulation database: `DB.user_id` and `DB.orders` (db.py lines
17-23) plus the OTA catalogs `OTADB.hotels/attractions/flights/trains`.
Python dicts are embedded as association lists. -/
structure DomainDB where
  user_id : String
  orders : List (String × Order)
  hotels : List (String × Store)
  attractions : List (String × Store)
  flights : List (String × Store)
  trains : List (String × Store)
deriving DecidableEq, Repr

/-- Python `d[k] = v` on an existing key: replace every binding of `k`. -/
def setAssoc (l : List (String × α)) (k : String) (v : α) : List (String × α) :=
  l.map (fun kv => if kv.1 = k then (kv.1, v) else kv)

/-- Ambient context of a tool call: `self.get_now("%Y-%m-%d %H:%M:%S")`,
the digest and timestamp feeding `assign_order_id`, and
`check_date_format` (a `datetime.strptime` wrapper over the Python
standard library, abstracted as a predicate). -/
structure ToolCtx where
  now : String
  sha256hex : String → String
  timestamp : String
  dateFormatOk : String → Bool

/-- `_modify_ota_order` (ota/tools.py lines 74-88) /
`_modify_delivery_order` (delivery/tools.py lines 89-103): re-store the
order under its id, or report "Order not found". -/
def modifyOrderRes (db : DomainDB) (o : Order) : String × DomainDB :=
  if (db.orders.lookup o.order_id).isSome then
    ("done", {db with orders := setAssoc db.orders o.order_id o})
  else ("Order not found", db)

/-- `_add_ota_order` (ota/tools.py lines 58-72) / `_add_delivery_order`
(delivery/tools.py lines 77-87): insert a fresh order, or report
"Order already exists". -/
def addOrderRes (db : DomainDB) (o : Order) : String × DomainDB :=
  if (db.orders.lookup o.order_id).isSome then ("Order already exists", db)
  else ("done", {db with orders := db.orders ++ [(o.order_id, o)]})

/-- First product satisfying the predicate, with its index: the embedding of
the `for product in ...: if ...: break` search loops; the index identifies
the mutated object. -/
def findIdxElem (p : Product → Bool) : List Product → Option (ℕ × Product)
  | [] => none
  | x :: xs =>
    if p x then some (0, x)
    else (findIdxElem p xs).map (fun ie => (ie.1 + 1, ie.2))

/-- In-place mutation of the `i`-th list element. -/
def modifyIdx : List Product → ℕ → (Product → Product) → List Product
  | [], _, _ => []
  | x :: xs, 0, f => f x :: xs
  | x :: xs, n + 1, f => x :: modifyIdx xs n f

/-! ## Cancel tools (ota/tools.py lines 1035-1162, delivery/tools.py lines
335-352) -/

/-- Observable outcome of a cancel tool, one constructor per return site:
`assertFailed` a failed `assert` (the toolkit converts it to an error
string), `orderError` the caught `ValueError` (`"Error: {e}"`), `wrongType`
`"Order ... is not a ... order"`, `wrongUser` `"... does not belong to
user ..."`, `alreadyCancelled` `"Order ... is already cancelled"`,
`cancelled refund` the OTA `"Cancellation successful, refund amount:
{refund}"`, `cancelledNoRefund` the delivery `"Order ... has been
cancelled."` (no refund amount in the message), `cancelFailed` the
`"Cancellation failed: ..."` path. -/
inductive CancelResult
  | assertFailed
  | orderError
  | wrongType
  | wrongUser
  | alreadyCancelled
  | cancelled (refund : ℚ)
  | cancelledNoRefund
  | cancelFailed (resp : String)
deriving DecidableEq, Repr

/-- Common body of `cancel_hotel_order`, `cancel_attraction_order`,
`cancel_flight_order` and `cancel_train_order` (ota/tools.py lines
1035-1162): the four functions are textually identical up to the
`order_type` string `otype`. -/
def cancelOtaOrder (otype : String) (ctx : ToolCtx) (db : DomainDB)
    (order_id user_id : String) : CancelResult × DomainDB :=
  if order_id = "" ∨ user_id = "" ∨ user_id ≠ db.user_id then (.assertFailed, db)
  else
    match db.orders.lookup order_id with
    | none => (.orderError, db)
    | some order =>
      if order.order_type ≠ otype then (.wrongType, db)
      else if order.user_id ≠ user_id then (.wrongUser, db)
      else if order.status = .cancelled then (.alreadyCancelled, db)
      else
        let refund : ℚ := if order.status = .paid then order.total_price else 0
        let o := {order with status := OrderStatus.cancelled, update_time := ctx.now}
        let rd := modifyOrderRes db o
        if rd.1 = "done" then (.cancelled refund, rd.2)
        else (.cancelFailed rd.1, rd.2)

/-- `cancel_hotel_order` (ota/tools.py lines 1035-1065). -/
def cancel_hotel_order (ctx : ToolCtx) (db : DomainDB)
    (order_id user_id : String) : CancelResult × DomainDB :=
  cancelOtaOrder "hotel" ctx db order_id user_id

/-- `cancel_attraction_order` (ota/tools.py lines 1067-1097). -/
def cancel_attraction_order (ctx : ToolCtx) (db : DomainDB)
    (order_id user_id : String) : CancelResult × DomainDB :=
  cancelOtaOrder "attraction" ctx db order_id user_id

/-- `cancel_flight_order` (ota/tools.py lines 1099-1129). -/
def cancel_flight_order (ctx : ToolCtx) (db : DomainDB)
    (order_id user_id : String) : CancelResult × DomainDB :=
  cancelOtaOrder "flight" ctx db order_id user_id

/-- `cancel_train_order` (ota/tools.py lines 1131-1162). -/
def cancel_train_order (ctx : ToolCtx) (db : DomainDB)
    (order_id user_id : String) : CancelResult × DomainDB :=
  cancelOtaOrder "train" ctx db order_id user_id

/-- `_get_delivery_order(order_id)` (delivery/tools.py lines 59-75): raises
`ValueError` unless the order exists and is a delivery order. -/
def getDeliveryOrder (db : DomainDB) (order_id : String) : Option Order :=
  match db.orders.lookup order_id with
  | none => none
  | some o => if o.order_type = "delivery" then some o else none

/-- `cancel_delivery_order` (delivery/tools.py lines 335-352): its success
message `"Order {id} has been cancelled."` carries no refund amount. -/
def cancel_delivery_order (ctx : ToolCtx) (db : DomainDB) (order_id : String) :
    CancelResult × DomainDB :=
  if order_id = "" then (.assertFailed, db)
  else
    match getDeliveryOrder db order_id with
    | none => (.orderError, db)
    | some order =>
      if order.status = .cancelled then (.alreadyCancelled, db)
      else
        let o := {order with status := OrderStatus.cancelled, update_time := ctx.now}
        let rd := modifyOrderRes db o
        if rd.1 = "done" then (.cancelledNoRefund, rd.2)
        else (.cancelFailed rd.1, rd.2)

/-! ## Modify tools (ota/tools.py lines 871-1033, delivery/tools.py lines
354-373) -/

/-- Observable outcome of a modify tool, one constructor per return site. -/
inductive ModifyResult
  | assertFailed
  | orderError
  | wrongType
  | wrongUser
  | notPaid                      -- "Only paid orders can be modified. ..."
  | multiProduct                 -- "Only single ... order modification is supported"
  | storeError                   -- caught ValueError on the store lookup
  | noSeats                      -- "New date ... does not have ... type seats"
  | insufficient (available requested : ℤ)
  | modifiedNeedPay (diff : ℚ)   -- "... need to pay additional amount ..."
  | modifiedRefund (diff : ℚ)    -- "... price difference ..., refunded"
  | rejectedCancelled            -- delivery: "Cannot modify ... already cancelled"
  | modified                     -- delivery: "Order ... has been modified."
  | modifyFailed (resp : String)
deriving DecidableEq, Repr

/-- `modify_train_order` (ota/tools.py lines 871-951). -/
def modify_train_order (ctx : ToolCtx) (db : DomainDB)
    (order_id user_id new_date : String) : ModifyResult × DomainDB :=
  if order_id = "" ∨ user_id = "" ∨ new_date = "" ∨ user_id ≠ db.user_id
      ∨ ¬ ctx.dateFormatOk new_date then (.assertFailed, db)
  else
    match db.orders.lookup order_id with
    | none => (.orderError, db)
    | some order =>
      if order.order_type ≠ "train" then (.wrongType, db)
      else if order.user_id ≠ user_id then (.wrongUser, db)
      else if order.status ≠ .paid then (.notPaid, db)
      else
        match order.products with
        | [old_product] =>
          match db.trains.lookup order.store_id with
          | none => (.storeError, db)
          | some train =>
            let st := old_product.ptype
            let qty := old_product.quantity
            match findIdxElem (fun p => p.date == new_date && p.ptype == st)
                train.products with
            | none => (.noSeats, db)
            | some ie =>
              if ie.2.quantity < qty then (.insufficient ie.2.quantity qty, db)
              else
                -- re-credit the first (old date, seat type) entry, then debit
                -- the object found above; Python mutates the two objects in
                -- place, so when they coincide the net change is zero
                let prods1 :=
                  match List.findIdx?
                      (fun p => p.date == old_product.date && p.ptype == st)
                      train.products with
                  | some j => modifyIdx train.products j
                      (fun p => {p with quantity := p.quantity + qty})
                  | none => train.products
                let prods2 := modifyIdx prods1 ie.1
                  (fun p => {p with quantity := p.quantity - qty})
                let train2 := {train with products := prods2}
                let db1 := {db with trains := setAssoc db.trains order.store_id train2}
                let diff := ie.2.price * (qty : ℚ) - old_product.price * (qty : ℚ)
                let o1 :=
                  if diff > 0 then {order with status := OrderStatus.unpaid} else order
                let newp : Product :=
                  { product_id := ie.2.product_id, price := ie.2.price,
                    quantity := qty, date := new_date, ptype := st }
                let o2 := {o1 with
                  products := [newp],
                  total_price := ie.2.price * (qty : ℚ),
                  update_time := ctx.now}
                let rd := modifyOrderRes db1 o2
                if rd.1 = "done" then
                  if diff > 0 then (.modifiedNeedPay diff, rd.2)
                  else (.modifiedRefund diff, rd.2)
                else (.modifyFailed rd.1, rd.2)
        | _ => (.multiProduct, db)

/-- `modify_flight_order` (ota/tools.py lines 953-1033): same flow as the
train variant over `db.flights`. -/
def modify_flight_order (ctx : ToolCtx) (db : DomainDB)
    (order_id user_id new_date : String) : ModifyResult × DomainDB :=
  if order_id = "" ∨ user_id = "" ∨ new_date = "" ∨ user_id ≠ db.user_id
      ∨ ¬ ctx.dateFormatOk new_date then (.assertFailed, db)
  else
    match db.orders.lookup order_id with
    | none => (.orderError, db)
    | some order =>
      if order.order_type ≠ "flight" then (.wrongType, db)
      else if order.user_id ≠ user_id then (.wrongUser, db)
      else if order.status ≠ .paid then (.notPaid, db)
      else
        match order.products with
        | [old_product] =>
          match db.flights.lookup order.store_id with
          | none => (.storeError, db)
          | some flight =>
            let st := old_product.ptype
            let qty := old_product.quantity
            match findIdxElem (fun p => p.date == new_date && p.ptype == st)
                flight.products with
            | none => (.noSeats, db)
            | some ie =>
              if ie.2.quantity < qty then (.insufficient ie.2.quantity qty, db)
              else
                let prods1 :=
                  match List.findIdx?
                      (fun p => p.date == old_product.date && p.ptype == st)
                      flight.products with
                  | some j => modifyIdx flight.products j
                      (fun p => {p with quantity := p.quantity + qty})
                  | none => flight.products
                let prods2 := modifyIdx prods1 ie.1
                  (fun p => {p with quantity := p.quantity - qty})
                let flight2 := {flight with products := prods2}
                let db1 := {db with flights := setAssoc db.flights order.store_id flight2}
                let diff := ie.2.price * (qty : ℚ) - old_product.price * (qty : ℚ)
                let o1 :=
                  if diff > 0 then {order with status := OrderStatus.unpaid} else order
                let newp : Product :=
                  { product_id := ie.2.product_id, price := ie.2.price,
                    quantity := qty, date := new_date, ptype := st }
                let o2 := {o1 with
                  products := [newp],
                  total_price := ie.2.price * (qty : ℚ),
                  update_time := ctx.now}
                let rd := modifyOrderRes db1 o2
                if rd.1 = "done" then
                  if diff > 0 then (.modifiedNeedPay diff, rd.2)
                  else (.modifiedRefund diff, rd.2)
                else (.modifyFailed rd.1, rd.2)
        | _ => (.multiProduct, db)

/-- `modify_delivery_order` (delivery/tools.py lines 354-373): only a
`cancelled` order is rejected; any other status gets its note replaced.
(The `assert note is not None` is vacuous here: notes are strings.) -/
def modify_delivery_order (ctx : ToolCtx) (db : DomainDB)
    (order_id note : String) : ModifyResult × DomainDB :=
  if order_id = "" then (.assertFailed, db)
  else
    match getDeliveryOrder db order_id with
    | none => (.orderError, db)
    | some order =>
      if order.status = .cancelled then (.rejectedCancelled, db)
      else
        let o := {order with note := note, update_time := ctx.now}
        let rd := modifyOrderRes db o
        if rd.1 = "done" then (.modified, rd.2)
        else (.modifyFailed rd.1, rd.2)

/-! ## Create tools (ota/tools.py lines 337-557) -/

/-- Observable outcome of a create tool, one constructor per return site. -/
inductive CreateResult
  | assertFailed
  | storeError                    -- caught ValueError from _get_hotel/_get_train/...
  | productNotFound               -- "... does not have ... on date ..." / "Room ... not found"
  | noRooms                       -- hotel: "No available rooms at the moment ..."
  | insufficient (available requested : ℤ)
  | created (order : Order)       -- repr(order)
  | createFailed (resp : String)  -- "Failed to create order: {resp}"
deriving DecidableEq, Repr

/-- `assign_order_id` at the create-tool call sites, where every required
parameter is supplied so the `ValueError` branch cannot fire. -/
def assignOrderIdStr (ctx : ToolCtx) (scenario userId : String)
    (kwargs : List (String × String)) : String :=
  match assign_order_id ctx.sha256hex ctx.timestamp scenario userId kwargs with
  | .ok s => s
  | .error _ => ""

/-- `create_hotel_order` (ota/tools.py lines 337-386): books one room by
`room_id`, refusing when the room's quantity is `≤ 0`, else decrementing
it by 1. -/
def create_hotel_order (ctx : ToolCtx) (db : DomainDB)
    (hotel_id room_id user_id : String) : CreateResult × DomainDB :=
  if hotel_id = "" ∨ room_id = "" ∨ user_id = "" ∨ user_id ≠ db.user_id then
    (.assertFailed, db)
  else
    match db.hotels.lookup hotel_id with
    | none => (.storeError, db)
    | some hotel =>
      match findIdxElem (fun p => p.product_id == room_id) hotel.products with
      | none => (.productNotFound, db)
      | some ie =>
        if ie.2.quantity ≤ 0 then (.noRooms, db)
        else
          let prods := modifyIdx hotel.products ie.1
            (fun p => {p with quantity := p.quantity - 1})
          let hotel2 := {hotel with products := prods}
          let db1 := {db with hotels := setAssoc db.hotels hotel_id hotel2}
          let room : Product :=
            { product_id := ie.2.product_id, price := ie.2.price,
              quantity := 1, date := ie.2.date, ptype := ie.2.ptype }
          let order : Order := {
            order_id := assignOrderIdStr ctx "hotel" user_id
              [("hotel_id", hotel_id), ("product_id", room_id)],
            order_type := "hotel", user_id := user_id, store_id := hotel_id,
            note := "", total_price := room.price,
            create_time := ctx.now, update_time := ctx.now,
            status := OrderStatus.unpaid, products := [room]}
          let rd := addOrderRes db1 order
          if rd.1 = "done" then (.created order, rd.2)
          else (.createFailed rd.1, rd.2)

/-- `create_attraction_order` (ota/tools.py lines 388-443). -/
def create_attraction_order (ctx : ToolCtx) (db : DomainDB)
    (attraction_id ticket_id user_id date : String) (quantity : ℤ) :
    CreateResult × DomainDB :=
  if attraction_id = "" ∨ ticket_id = "" ∨ user_id = "" ∨ date = ""
      ∨ ¬ quantity > 0 ∨ ¬ ctx.dateFormatOk date ∨ user_id ≠ db.user_id then
    (.assertFailed, db)
  else
    match db.attractions.lookup attraction_id with
    | none => (.storeError, db)
    | some attraction =>
      match findIdxElem (fun p => p.date == date && p.product_id == ticket_id)
          attraction.products with
      | none => (.productNotFound, db)
      | some ie =>
        if ie.2.quantity < quantity then (.insufficient ie.2.quantity quantity, db)
        else
          let prods := modifyIdx attraction.products ie.1
            (fun p => {p with quantity := p.quantity - quantity})
          let attraction2 := {attraction with products := prods}
          let db1 := {db with attractions := setAssoc db.attractions attraction_id attraction2}
          let ticket : Product :=
            { product_id := ie.2.product_id, price := ie.2.price,
              quantity := quantity, date := date, ptype := ie.2.ptype }
          let order : Order := {
            order_id := assignOrderIdStr ctx "attraction" user_id [],
            order_type := "attraction", user_id := user_id, store_id := attraction_id,
            note := "", total_price := ticket.price * (ticket.quantity : ℚ),
            create_time := ctx.now, update_time := ctx.now,
            status := OrderStatus.unpaid, products := [ticket]}
          let rd := addOrderRes db1 order
          if rd.1 = "done" then (.created order, rd.2)
          else (.createFailed rd.1, rd.2)

/-- `create_flight_order` (ota/tools.py lines 445-500). -/
def create_flight_order (ctx : ToolCtx) (db : DomainDB)
    (flight_id seat_id user_id date : String) (quantity : ℤ) :
    CreateResult × DomainDB :=
  if flight_id = "" ∨ seat_id = "" ∨ user_id = "" ∨ date = ""
      ∨ ¬ quantity > 0 ∨ ¬ ctx.dateFormatOk date ∨ user_id ≠ db.user_id then
    (.assertFailed, db)
  else
    match db.flights.lookup flight_id with
    | none => (.storeError, db)
    | some flight =>
      match findIdxElem (fun p => p.date == date && p.product_id == seat_id)
          flight.products with
      | none => (.productNotFound, db)
      | some ie =>
        if ie.2.quantity < quantity then (.insufficient ie.2.quantity quantity, db)
        else
          let prods := modifyIdx flight.products ie.1
            (fun p => {p with quantity := p.quantity - quantity})
          let flight2 := {flight with products := prods}
          let db1 := {db with flights := setAssoc db.flights flight_id flight2}
          let seat : Product :=
            { product_id := ie.2.product_id, price := ie.2.price,
              quantity := quantity, date := date, ptype := ie.2.ptype }
          let order : Order := {
            order_id := assignOrderIdStr ctx "flight" user_id [],
            order_type := "flight", user_id := user_id, store_id := flight_id,
            note := "", total_price := seat.price * (seat.quantity : ℚ),
            create_time := ctx.now, update_time := ctx.now,
            status := OrderStatus.unpaid, products := [seat]}
          let rd := addOrderRes db1 order
          if rd.1 = "done" then (.created order, rd.2)
          else (.createFailed rd.1, rd.2)

/-- `create_train_order` (ota/tools.py lines 502-557). -/
def create_train_order (ctx : ToolCtx) (db : DomainDB)
    (train_id seat_id user_id date : String) (quantity : ℤ) :
    CreateResult × DomainDB :=
  if train_id = "" ∨ seat_id = "" ∨ user_id = "" ∨ date = ""
      ∨ ¬ quantity > 0 ∨ ¬ ctx.dateFormatOk date ∨ user_id ≠ db.user_id then
    (.assertFailed, db)
  else
    match db.trains.lookup train_id with
    | none => (.storeError, db)
    | some train =>
      match findIdxElem (fun p => p.date == date && p.product_id == seat_id)
          train.products with
      | none => (.productNotFound, db)
      | some ie =>
        if ie.2.quantity < quantity then (.insufficient ie.2.quantity quantity, db)
        else
          let prods := modifyIdx train.products ie.1
            (fun p => {p with quantity := p.quantity - quantity})
          let train2 := {train with products := prods}
          let db1 := {db with trains := setAssoc db.trains train_id train2}
          let seat : Product :=
            { product_id := ie.2.product_id, price := ie.2.price,
              quantity := quantity, date := date, ptype := ie.2.ptype }
          let order : Order := {
            order_id := assignOrderIdStr ctx "train" user_id [],
            order_type := "train", user_id := user_id, store_id := train_id,
            note := "", total_price := seat.price * (seat.quantity : ℚ),
            create_time := ctx.now, update_time := ctx.now,
            status := OrderStatus.unpaid, products := [seat]}
          let rd := addOrderRes db1 order
          if rd.1 = "done" then (.created order, rd.2)
          else (.createFailed rd.1, rd.2)

/-! ### Supporting lemmas about the domain embedding -/

/-- Every product quantity of the store is non-negative. -/
def storeNonneg (s : Store) : Prop := ∀ p ∈ s.products, 0 ≤ p.quantity

/-- Every product quantity in the catalog table is non-negative. -/
def tableNonneg (t : List (String × Store)) : Prop := ∀ e ∈ t, storeNonneg e.2

/-- Every product quantity in every catalog of the database is
non-negative. -/
def dbNonneg (db : DomainDB) : Prop :=
  tableNonneg db.hotels ∧ tableNonneg db.attractions ∧
  tableNonneg db.flights ∧ tableNonneg db.trains

/-- Total product quantity of one store. -/
def storeQty (s : Store) : ℤ := (s.products.map (fun p => p.quantity)).sum

lemma modifyOrderRes_stores (db : DomainDB) (o : Order) :
    (modifyOrderRes db o).2.hotels = db.hotels ∧
    (modifyOrderRes db o).2.attractions = db.attractions ∧
    (modifyOrderRes db o).2.flights = db.flights ∧
    (modifyOrderRes db o).2.trains = db.trains := by
  unfold modifyOrderRes
  split <;> exact ⟨rfl, rfl, rfl, rfl⟩

lemma addOrderRes_stores (db : DomainDB) (o : Order) :
    (addOrderRes db o).2.hotels = db.hotels ∧
    (addOrderRes db o).2.attractions = db.attractions ∧
    (addOrderRes db o).2.flights = db.flights ∧
    (addOrderRes db o).2.trains = db.trains := by
  unfold addOrderRes
  split <;> exact ⟨rfl, rfl, rfl, rfl⟩

lemma dbNonneg_of_stores_eq {db db' : DomainDB}
    (hh : db'.hotels = db.hotels) (ha : db'.attractions = db.attractions)
    (hf : db'.flights = db.flights) (ht : db'.trains = db.trains)
    (h : dbNonneg db) : dbNonneg db' := by
  unfold dbNonneg
  rw [hh, ha, hf, ht]
  exact h

lemma lookup_some_mem : ∀ (l : List (String × α)) (k : String) (v : α),
    l.lookup k = some v → ∃ a, (a, v) ∈ l
  | [], _, _, h => by simp [List.lookup] at h
  | (a, b) :: es, k, v, h => by
    cases hk : k == a with
    | true =>
      have hv : b = v := by simpa [List.lookup, hk] using h
      exact ⟨a, by simp [hv]⟩
    | false =>
      obtain ⟨a', ha'⟩ := lookup_some_mem es k v (by simpa [List.lookup, hk] using h)
      exact ⟨a', by simp [ha']⟩

lemma lookup_setAssoc_of_some : ∀ (l : List (String × α)) (k : String) (v w : α),
    l.lookup k = some w → (setAssoc l k v).lookup k = some v
  | [], _, _, _, h => by simp [List.lookup] at h
  | (a, b) :: es, k, v, w, h => by
    cases hk : k == a with
    | true =>
      have hak : a = k := ((beq_iff_eq).1 hk).symm
      subst hak
      show List.lookup a ((if a = a then (a, v) else (a, b)) :: setAssoc es a v) =
        some v
      rw [if_pos rfl]
      simp [List.lookup]
    | false =>
      have hak : ¬ a = k := by
        intro he
        rw [he] at hk
        simp at hk
      have h' : List.lookup k es = some w := by simpa [List.lookup, hk] using h
      have ih := lookup_setAssoc_of_some es k v w h'
      show List.lookup k ((if a = k then (a, v) else (a, b)) :: setAssoc es k v) = some v
      rw [if_neg hak]
      simpa [List.lookup, hk] using ih

lemma tableNonneg_setAssoc (T : List (String × Store)) (k : String) (s2 : Store)
    (hT : tableNonneg T) (hs : storeNonneg s2) : tableNonneg (setAssoc T k s2) := by
  intro e he
  obtain ⟨kv, hkv, hmap⟩ := List.mem_map.1 he
  by_cases h : kv.1 = k
  · rw [if_pos h] at hmap
    rw [← hmap]
    exact hs
  · rw [if_neg h] at hmap
    rw [← hmap]
    exact hT kv hkv

lemma mem_modifyIdx : ∀ (l : List Product) (i : ℕ) (f : Product → Product)
    (p' : Product), p' ∈ modifyIdx l i f →
      p' ∈ l ∨ (i < l.length ∧ p' = f (l.getD i default))
  | [], i, f, p', h => by simp [modifyIdx] at h
  | x :: xs, 0, f, p', h => by
    rw [modifyIdx] at h
    rcases List.mem_cons.1 h with h | h
    · exact Or.inr ⟨by simp, by simpa using h⟩
    · exact Or.inl (List.mem_cons_of_mem x h)
  | x :: xs, n + 1, f, p', h => by
    rw [modifyIdx] at h
    rcases List.mem_cons.1 h with h | h
    · exact Or.inl (by simp [h])
    · rcases mem_modifyIdx xs n f p' h with h' | ⟨hn, he⟩
      · exact Or.inl (List.mem_cons_of_mem x h')
      · exact Or.inr ⟨by simpa using hn, by simpa using he⟩

lemma findIdxElem_spec (P : Product → Bool) :
    ∀ (l : List Product) (i : ℕ) (x : Product), findIdxElem P l = some (i, x) →
      i < l.length ∧ l.getD i default = x ∧ P x = true
  | [], i, x, h => by simp [findIdxElem] at h
  | y :: ys, i, x, h => by
    rw [findIdxElem] at h
    by_cases hy : P y
    · rw [if_pos hy] at h
      cases Option.some_inj.1 h
      exact ⟨by simp, by simp, hy⟩
    · rw [if_neg hy] at h
      cases hr : findIdxElem P ys with
      | none => rw [hr] at h; simp at h
      | some jx =>
        rw [hr] at h
        simp only [Option.map_some'] at h
        cases Option.some_inj.1 h
        obtain ⟨h1, h2, h3⟩ := findIdxElem_spec P ys jx.1 jx.2 hr
        exact ⟨by simpa using h1, by simpa using h2, h3⟩

lemma nonneg_modifyIdx_sub (l : List Product) (i : ℕ) (q : ℤ)
    (hl : ∀ p ∈ l, 0 ≤ p.quantity) (hq : q ≤ (l.getD i default).quantity) :
    ∀ p' ∈ modifyIdx l i (fun p => {p with quantity := p.quantity - q}),
      0 ≤ p'.quantity := by
  intro p' hp'
  rcases mem_modifyIdx l i _ p' hp' with h | ⟨_, he⟩
  · exact hl p' h
  · rw [he]
    simp only
    omega

lemma modifyIdx_quantity_sum (q : ℤ) :
    ∀ (l : List Product) (i : ℕ), i < l.length →
      ((modifyIdx l i (fun p => {p with quantity := p.quantity - q})).map
        (fun p => p.quantity)).sum = ((l.map (fun p => p.quantity)).sum) - q
  | [], i, h => by simp at h
  | x :: xs, 0, _ => by
    simp [modifyIdx]
    ring
  | x :: xs, n + 1, h => by
    have := modifyIdx_quantity_sum q xs n (by simpa using h)
    simp [modifyIdx, this]
    ring

/-- Behaviour of the shared OTA cancel body on a cancellable order. -/
lemma cancelOtaOrder_not_cancelled (otype : String) (ctx : ToolCtx)
    (db : DomainDB) (order_id user_id : String) (order : Order)
    (hl : db.orders.lookup order_id = some order)
    (hid : order_id ≠ "") (huid : user_id ≠ "") (hchk : user_id = db.user_id)
    (hty : order.order_type = otype) (huser : order.user_id = user_id)
    (hord : order.order_id = order_id) (hst : order.status ≠ .cancelled) :
    cancelOtaOrder otype ctx db order_id user_id =
      (.cancelled (if order.status = .paid then order.total_price else 0),
        { db with
          orders := setAssoc db.orders order_id
            ({order with status := OrderStatus.cancelled, update_time := ctx.now}) }) := by
  have hassert : ¬(order_id = "" ∨ user_id = "" ∨ user_id ≠ db.user_id) := by
    push_neg
    exact ⟨hid, huid, hchk⟩
  have hdone : (db.orders.lookup
      ({order with status := OrderStatus.cancelled, update_time := ctx.now} :
        Order).order_id).isSome := by
    simp only [hord]
    rw [hl]
    rfl
  simp only [cancelOtaOrder, if_neg hassert, hl]
  simp only [hty, huser, ne_eq, not_true_eq_false, if_false, ite_false,
    if_neg hst, modifyOrderRes, if_pos hdone]
  simp [hord]

/-- Behaviour of the shared OTA cancel body on an already-cancelled order. -/
lemma cancelOtaOrder_already (otype : String) (ctx : ToolCtx)
    (db : DomainDB) (order_id user_id : String) (order : Order)
    (hl : db.orders.lookup order_id = some order)
    (hid : order_id ≠ "") (huid : user_id ≠ "") (hchk : user_id = db.user_id)
    (hty : order.order_type = otype) (huser : order.user_id = user_id)
    (hst : order.status = .cancelled) :
    cancelOtaOrder otype ctx db order_id user_id = (.alreadyCancelled, db) := by
  have hassert : ¬(order_id = "" ∨ user_id = "" ∨ user_id ≠ db.user_id) := by
    push_neg
    exact ⟨hid, huid, hchk⟩
  simp only [cancelOtaOrder, if_neg hassert, hl]
  simp [hty, huser, hst]

lemma getDeliveryOrder_eq (db : DomainDB) (order_id : String) (order : Order)
    (hl : db.orders.lookup order_id = some order)
    (hty : order.order_type = "delivery") :
    getDeliveryOrder db order_id = some order := by
  simp [getDeliveryOrder, hl, hty]

/-- Behaviour of the delivery cancel on a cancellable order: the message
reports no refund amount. -/
lemma cancel_delivery_order_not_cancelled (ctx : ToolCtx) (db : DomainDB)
    (order_id : String) (order : Order)
    (hl : db.orders.lookup order_id = some order)
    (hid : order_id ≠ "") (hty : order.order_type = "delivery")
    (hord : order.order_id = order_id) (hst : order.status ≠ .cancelled) :
    cancel_delivery_order ctx db order_id =
      (.cancelledNoRefund,
        { db with
          orders := setAssoc db.orders order_id
            ({order with status := OrderStatus.cancelled, update_time := ctx.now}) }) := by
  have hdone : (db.orders.lookup
      ({order with status := OrderStatus.cancelled, update_time := ctx.now} :
        Order).order_id).isSome := by
    simp only [hord]
    rw [hl]
    rfl
  simp only [cancel_delivery_order, if_neg hid,
    getDeliveryOrder_eq db order_id order hl hty]
  simp only [if_neg hst, modifyOrderRes, if_pos hdone]
  simp [hord]

/-- Behaviour of the delivery cancel on an already-cancelled order. -/
lemma cancel_delivery_order_already (ctx : ToolCtx) (db : DomainDB)
    (order_id : String) (order : Order)
    (hl : db.orders.lookup order_id = some order)
    (hid : order_id ≠ "") (hty : order.order_type = "delivery")
    (hst : order.status = .cancelled) :
    cancel_delivery_order ctx db order_id = (.alreadyCancelled, db) := by
  simp only [cancel_delivery_order, if_neg hid,
    getDeliveryOrder_eq db order_id order hl hty]
  simp [hst]

/-- **C6 counterexample.** A paid delivery order with `total_price = 50`:
the claim requires the cancel tool to report a refund of `50`, but
`cancel_delivery_order` answers with its plain cancellation message, which
carries no refund amount at all. -/
theorem cancel_delivery_reports_no_refund_counterexample :
    (cancel_delivery_order ⟨"t1", fun _ => "", "0", fun _ => true⟩
      ⟨"U1", [("OD1", ⟨"OD1", "delivery", "U1", "S1", "", 50, "t0", "t0",
        .paid, []⟩)], [], [], [], []⟩ "OD1").1 = .cancelledNoRefund ∧
    CancelResult.cancelledNoRefund ≠ .cancelled (50 : ℚ) := by
  constructor
  · rfl
  · decide

/-- **C6 (amended).** The four OTA cancel tools (`cancel_hotel_order`,
`cancel_attraction_order`, `cancel_flight_order`, `cancel_train_order`, all
instances of the shared body `cancelOtaOrder`) report a refund equal to the
order's `total_price` iff the status immediately before cancellation was
`paid`, and a refund of `0` otherwise; `cancel_delivery_order` cancels but
reports no refund amount in its message; and every one of the five returns
an "already cancelled" message and leaves the database unchanged when the
order is already cancelled. -/
theorem cancel_refund_policy (ctx : ToolCtx) (db : DomainDB)
    (order_id user_id : String) (order : Order)
    (hl : db.orders.lookup order_id = some order)
    (hid : order_id ≠ "") (huid : user_id ≠ "") (hchk : user_id = db.user_id)
    (huser : order.user_id = user_id) (hord : order.order_id = order_id) :
    (∀ otype, order.order_type = otype → order.status ≠ .cancelled →
      (cancelOtaOrder otype ctx db order_id user_id).1 =
        .cancelled (if order.status = .paid then order.total_price else 0)) ∧
    (∀ otype, order.order_type = otype → order.status = .cancelled →
      cancelOtaOrder otype ctx db order_id user_id = (.alreadyCancelled, db)) ∧
    (order.order_type = "delivery" → order.status ≠ .cancelled →
      (cancel_delivery_order ctx db order_id).1 = .cancelledNoRefund) ∧
    (order.order_type = "delivery" → order.status = .cancelled →
      cancel_delivery_order ctx db order_id = (.alreadyCancelled, db)) ∧
    cancel_hotel_order ctx db order_id user_id =
      cancelOtaOrder "hotel" ctx db order_id user_id ∧
    cancel_attraction_order ctx db order_id user_id =
      cancelOtaOrder "attraction" ctx db order_id user_id ∧
    cancel_flight_order ctx db order_id user_id =
      cancelOtaOrder "flight" ctx db order_id user_id ∧
    cancel_train_order ctx db order_id user_id =
      cancelOtaOrder "train" ctx db order_id user_id := by
  refine ⟨fun otype hty hst => ?_, fun otype hty hst => ?_,
    fun hty hst => ?_, fun hty hst => ?_, rfl, rfl, rfl, rfl⟩
  · rw [cancelOtaOrder_not_cancelled otype ctx db order_id user_id order
      hl hid huid hchk hty huser hord hst]
  · exact cancelOtaOrder_already otype ctx db order_id user_id order
      hl hid huid hchk hty huser hst
  · rw [cancel_delivery_order_not_cancelled ctx db order_id order hl hid hty hord hst]
  · exact cancel_delivery_order_already ctx db order_id order hl hid hty hst

/-- Witness for the amended C6: a paid hotel order with `total_price = 300`
and a cancelled delivery order. -/
theorem cancel_refund_policy_witness :
    (cancelOtaOrder "hotel" ⟨"t1", fun _ => "", "0", fun _ => true⟩
      ⟨"U1", [("OH1", ⟨"OH1", "hotel", "U1", "H1", "", 300, "t0", "t0",
        .paid, []⟩)], [], [], [], []⟩ "OH1" "U1").1 =
      .cancelled (300 : ℚ) ∧
    cancel_delivery_order ⟨"t1", fun _ => "", "0", fun _ => true⟩
      ⟨"U1", [("OD2", ⟨"OD2", "delivery", "U1", "S1", "", 20, "t0", "t0",
        .cancelled, []⟩)], [], [], [], []⟩ "OD2" =
      (.alreadyCancelled,
        ⟨"U1", [("OD2", ⟨"OD2", "delivery", "U1", "S1", "", 20, "t0", "t0",
          .cancelled, []⟩)], [], [], [], []⟩) := by
  have h := cancel_refund_policy ⟨"t1", fun _ => "", "0", fun _ => true⟩
    ⟨"U1", [("OH1", ⟨"OH1", "hotel", "U1", "H1", "", 300, "t0", "t0",
      .paid, []⟩)], [], [], [], []⟩ "OH1" "U1"
    ⟨"OH1", "hotel", "U1", "H1", "", 300, "t0", "t0", .paid, []⟩
    rfl (by decide) (by decide) rfl rfl rfl
  have h2 := cancel_refund_policy ⟨"t1", fun _ => "", "0", fun _ => true⟩
    ⟨"U1", [("OD2", ⟨"OD2", "delivery", "U1", "S1", "", 20, "t0", "t0",
      .cancelled, []⟩)], [], [], [], []⟩ "OD2" "U1"
    ⟨"OD2", "delivery", "U1", "S1", "", 20, "t0", "t0", .cancelled, []⟩
    rfl (by decide) (by decide) rfl rfl rfl
  refine ⟨?_, h2.2.2.2.1 rfl rfl⟩
  have := h.1 "hotel" rfl (by decide)
  rw [this]
  decide

/-- A non-`paid` train order is rejected by `modify_train_order` with the
database untouched. -/
lemma modify_train_order_not_paid (ctx : ToolCtx) (db : DomainDB)
    (order_id user_id new_date : String) (order : Order)
    (hl : db.orders.lookup order_id = some order)
    (hid : order_id ≠ "") (huid : user_id ≠ "") (hnd : new_date ≠ "")
    (hchk : user_id = db.user_id) (hdf : ctx.dateFormatOk new_date = true)
    (hty : order.order_type = "train") (huser : order.user_id = user_id)
    (hst : order.status ≠ .paid) :
    modify_train_order ctx db order_id user_id new_date = (.notPaid, db) := by
  have hassert : ¬(order_id = "" ∨ user_id = "" ∨ new_date = ""
      ∨ user_id ≠ db.user_id ∨ ¬ ctx.dateFormatOk new_date) := by
    rintro (h | h | h | h | h)
    · exact hid h
    · exact huid h
    · exact hnd h
    · exact h hchk
    · exact h hdf
  simp only [modify_train_order, if_neg hassert, hl]
  simp [hty, huser, hst]

/-- A non-`paid` flight order is rejected by `modify_flight_order` with the
database untouched. -/
lemma modify_flight_order_not_paid (ctx : ToolCtx) (db : DomainDB)
    (order_id user_id new_date : String) (order : Order)
    (hl : db.orders.lookup order_id = some order)
    (hid : order_id ≠ "") (huid : user_id ≠ "") (hnd : new_date ≠ "")
    (hchk : user_id = db.user_id) (hdf : ctx.dateFormatOk new_date = true)
    (hty : order.order_type = "flight") (huser : order.user_id = user_id)
    (hst : order.status ≠ .paid) :
    modify_flight_order ctx db order_id user_id new_date = (.notPaid, db) := by
  have hassert : ¬(order_id = "" ∨ user_id = "" ∨ new_date = ""
      ∨ user_id ≠ db.user_id ∨ ¬ ctx.dateFormatOk new_date) := by
    rintro (h | h | h | h | h)
    · exact hid h
    · exact huid h
    · exact hnd h
    · exact h hchk
    · exact h hdf
  simp only [modify_flight_order, if_neg hassert, hl]
  simp [hty, huser, hst]

/-- `modify_delivery_order` rejects a cancelled order with the database
untouched. -/
lemma modify_delivery_order_cancelled (ctx : ToolCtx) (db : DomainDB)
    (order_id note : String) (order : Order)
    (hl : db.orders.lookup order_id = some order)
    (hid : order_id ≠ "") (hty : order.order_type = "delivery")
    (hst : order.status = .cancelled) :
    modify_delivery_order ctx db order_id note = (.rejectedCancelled, db) := by
  simp only [modify_delivery_order, if_neg hid,
    getDeliveryOrder_eq db order_id order hl hty]
  simp [hst]

/-- `modify_delivery_order` modifies any non-cancelled delivery order,
whatever its status. -/
lemma modify_delivery_order_modified (ctx : ToolCtx) (db : DomainDB)
    (order_id note : String) (order : Order)
    (hl : db.orders.lookup order_id = some order)
    (hid : order_id ≠ "") (hty : order.order_type = "delivery")
    (hord : order.order_id = order_id) (hst : order.status ≠ .cancelled) :
    modify_delivery_order ctx db order_id note =
      (.modified,
        { db with
          orders := setAssoc db.orders order_id
            ({order with note := note, update_time := ctx.now}) }) := by
  have hdone : (db.orders.lookup
      ({order with note := note, update_time := ctx.now} :
        Order).order_id).isSome := by
    simp only [hord]
    rw [hl]
    rfl
  simp only [modify_delivery_order, if_neg hid,
    getDeliveryOrder_eq db order_id order hl hty]
  simp only [if_neg hst, modifyOrderRes, if_pos hdone]
  simp [hord]

/-- **C8 counterexample.** An `unpaid` delivery order: the claim requires
every `modify_*` order tool to reject a non-`paid` order, but
`modify_delivery_order` modifies it (replacing its note and update time)
and changes the database. -/
theorem modify_delivery_allows_unpaid_counterexample :
    (modify_delivery_order ⟨"t1", fun _ => "", "0", fun _ => true⟩
      ⟨"U1", [("OD1", ⟨"OD1", "delivery", "U1", "S1", "", 30, "t0", "t0",
        .unpaid, []⟩)], [], [], [], []⟩ "OD1" "no onions").1 = .modified ∧
    (modify_delivery_order ⟨"t1", fun _ => "", "0", fun _ => true⟩
      ⟨"U1", [("OD1", ⟨"OD1", "delivery", "U1", "S1", "", 30, "t0", "t0",
        .unpaid, []⟩)], [], [], [], []⟩ "OD1" "no onions").2 ≠
      ⟨"U1", [("OD1", ⟨"OD1", "delivery", "U1", "S1", "", 30, "t0", "t0",
        .unpaid, []⟩)], [], [], [], []⟩ := by
  constructor
  · rfl
  · decide

/-- **C8 (amended).** `modify_train_order` and `modify_flight_order` reject
every order whose status is not `paid` and leave the database unchanged;
`modify_delivery_order` rejects only `cancelled` orders — a non-`paid`,
non-`cancelled` delivery order (e.g. `unpaid`) is modified. -/
theorem modify_requires_paid (ctx : ToolCtx) (db : DomainDB)
    (order_id user_id new_date note : String) (order : Order)
    (hl : db.orders.lookup order_id = some order)
    (hid : order_id ≠ "") (huid : user_id ≠ "") (hnd : new_date ≠ "")
    (hchk : user_id = db.user_id) (hdf : ctx.dateFormatOk new_date = true)
    (huser : order.user_id = user_id) (hord : order.order_id = order_id) :
    (order.order_type = "train" → order.status ≠ .paid →
      modify_train_order ctx db order_id user_id new_date = (.notPaid, db)) ∧
    (order.order_type = "flight" → order.status ≠ .paid →
      modify_flight_order ctx db order_id user_id new_date = (.notPaid, db)) ∧
    (order.order_type = "delivery" → order.status = .cancelled →
      modify_delivery_order ctx db order_id note = (.rejectedCancelled, db)) ∧
    (order.order_type = "delivery" → order.status ≠ .cancelled →
      (modify_delivery_order ctx db order_id note).1 = .modified) := by
  refine ⟨fun hty hst => ?_, fun hty hst => ?_, fun hty hst => ?_,
    fun hty hst => ?_⟩
  · exact modify_train_order_not_paid ctx db order_id user_id new_date order
      hl hid huid hnd hchk hdf hty huser hst
  · exact modify_flight_order_not_paid ctx db order_id user_id new_date order
      hl hid huid hnd hchk hdf hty huser hst
  · exact modify_delivery_order_cancelled ctx db order_id note order hl hid hty hst
  · rw [modify_delivery_order_modified ctx db order_id note order hl hid hty hord hst]

/-- Witness for the amended C8: an `unpaid` train order is rejected. -/
theorem modify_requires_paid_witness :
    modify_train_order ⟨"t1", fun _ => "", "0", fun _ => true⟩
      ⟨"U1", [("OT1", ⟨"OT1", "train", "U1", "T1", "", 80, "t0", "t0",
        .unpaid, []⟩)], [], [], [], []⟩ "OT1" "U1" "2025-07-01" =
      (.notPaid,
        ⟨"U1", [("OT1", ⟨"OT1", "train", "U1", "T1", "", 80, "t0", "t0",
          .unpaid, []⟩)], [], [], [], []⟩) :=
  (modify_requires_paid ⟨"t1", fun _ => "", "0", fun _ => true⟩
    ⟨"U1", [("OT1", ⟨"OT1", "train", "U1", "T1", "", 80, "t0", "t0",
      .unpaid, []⟩)], [], [], [], []⟩ "OT1" "U1" "2025-07-01" ""
    ⟨"OT1", "train", "U1", "T1", "", 80, "t0", "t0", .unpaid, []⟩
    rfl (by decide) (by decide) (by decide) rfl rfl rfl rfl).1 rfl (by decide)

/-- No branch of `create_train_order` drives a catalog quantity negative. -/
lemma create_train_order_nonneg (ctx : ToolCtx) (db : DomainDB)
    (tid sid uid date : String) (q : ℤ) (hnn : dbNonneg db) :
    dbNonneg (create_train_order ctx db tid sid uid date q).2 := by
  unfold create_train_order
  split
  · exact hnn
  · split
    · exact hnn
    · rename_i train hlk
      split
      · exact hnn
      · rename_i ie hfind
        split
        · exact hnn
        · rename_i hq
          dsimp only
          split <;>
          · refine dbNonneg_of_stores_eq (addOrderRes_stores _ _).1
              (addOrderRes_stores _ _).2.1 (addOrderRes_stores _ _).2.2.1
              (addOrderRes_stores _ _).2.2.2 ?_
            refine ⟨hnn.1, hnn.2.1, hnn.2.2.1, ?_⟩
            apply tableNonneg_setAssoc _ _ _ hnn.2.2.2
            intro p hp
            obtain ⟨hi, hgd, _⟩ := findIdxElem_spec _ train.products ie.1 ie.2 hfind
            obtain ⟨a, hmem⟩ := lookup_some_mem db.trains tid train hlk
            exact nonneg_modifyIdx_sub train.products ie.1 q
              (fun x hx => hnn.2.2.2 (a, train) hmem x hx)
              (by rw [hgd]; omega) p hp

/-- No branch of `create_flight_order` drives a catalog quantity negative. -/
lemma create_flight_order_nonneg (ctx : ToolCtx) (db : DomainDB)
    (fid sid uid date : String) (q : ℤ) (hnn : dbNonneg db) :
    dbNonneg (create_flight_order ctx db fid sid uid date q).2 := by
  unfold create_flight_order
  split
  · exact hnn
  · split
    · exact hnn
    · rename_i flight hlk
      split
      · exact hnn
      · rename_i ie hfind
        split
        · exact hnn
        · rename_i hq
          dsimp only
          split <;>
          · refine dbNonneg_of_stores_eq (addOrderRes_stores _ _).1
              (addOrderRes_stores _ _).2.1 (addOrderRes_stores _ _).2.2.1
              (addOrderRes_stores _ _).2.2.2 ?_
            refine ⟨hnn.1, hnn.2.1, ?_, hnn.2.2.2⟩
            apply tableNonneg_setAssoc _ _ _ hnn.2.2.1
            intro p hp
            obtain ⟨hi, hgd, _⟩ := findIdxElem_spec _ flight.products ie.1 ie.2 hfind
            obtain ⟨a, hmem⟩ := lookup_some_mem db.flights fid flight hlk
            exact nonneg_modifyIdx_sub flight.products ie.1 q
              (fun x hx => hnn.2.2.1 (a, flight) hmem x hx)
              (by rw [hgd]; omega) p hp

/-- No branch of `create_attraction_order` drives a catalog quantity
negative. -/
lemma create_attraction_order_nonneg (ctx : ToolCtx) (db : DomainDB)
    (aid tid uid date : String) (q : ℤ) (hnn : dbNonneg db) :
    dbNonneg (create_attraction_order ctx db aid tid uid date q).2 := by
  unfold create_attraction_order
  split
  · exact hnn
  · split
    · exact hnn
    · rename_i attraction hlk
      split
      · exact hnn
      · rename_i ie hfind
        split
        · exact hnn
        · rename_i hq
          dsimp only
          split <;>
          · refine dbNonneg_of_stores_eq (addOrderRes_stores _ _).1
              (addOrderRes_stores _ _).2.1 (addOrderRes_stores _ _).2.2.1
              (addOrderRes_stores _ _).2.2.2 ?_
            refine ⟨hnn.1, ?_, hnn.2.2.1, hnn.2.2.2⟩
            apply tableNonneg_setAssoc _ _ _ hnn.2.1
            intro p hp
            obtain ⟨hi, hgd, _⟩ :=
              findIdxElem_spec _ attraction.products ie.1 ie.2 hfind
            obtain ⟨a, hmem⟩ := lookup_some_mem db.attractions aid attraction hlk
            exact nonneg_modifyIdx_sub attraction.products ie.1 q
              (fun x hx => hnn.2.1 (a, attraction) hmem x hx)
              (by rw [hgd]; omega) p hp

/-- No branch of `create_hotel_order` drives a catalog quantity negative:
the decrement by 1 only happens when the room quantity is positive. -/
lemma create_hotel_order_nonneg (ctx : ToolCtx) (db : DomainDB)
    (hid rid uid : String) (hnn : dbNonneg db) :
    dbNonneg (create_hotel_order ctx db hid rid uid).2 := by
  unfold create_hotel_order
  split
  · exact hnn
  · split
    · exact hnn
    · rename_i hotel hlk
      split
      · exact hnn
      · rename_i ie hfind
        split
        · exact hnn
        · rename_i hq
          dsimp only
          split <;>
          · refine dbNonneg_of_stores_eq (addOrderRes_stores _ _).1
              (addOrderRes_stores _ _).2.1 (addOrderRes_stores _ _).2.2.1
              (addOrderRes_stores _ _).2.2.2 ?_
            refine ⟨?_, hnn.2.1, hnn.2.2.1, hnn.2.2.2⟩
            apply tableNonneg_setAssoc _ _ _ hnn.1
            intro p hp
            obtain ⟨hi, hgd, _⟩ := findIdxElem_spec _ hotel.products ie.1 ie.2 hfind
            obtain ⟨a, hmem⟩ := lookup_some_mem db.hotels hid hotel hlk
            exact nonneg_modifyIdx_sub hotel.products ie.1 1
              (fun x hx => hnn.1 (a, hotel) hmem x hx)
              (by rw [hgd]; omega) p hp

/-- With insufficient seat inventory, `create_train_order` refuses and
leaves the database unchanged. -/
lemma create_train_order_insufficient (ctx : ToolCtx) (db : DomainDB)
    (tid sid uid date : String) (quantity : ℤ) (train : Store) (ie : ℕ × Product)
    (hassert : ¬(tid = "" ∨ sid = "" ∨ uid = "" ∨ date = "" ∨ ¬ quantity > 0
      ∨ ¬ ctx.dateFormatOk date ∨ uid ≠ db.user_id))
    (hlk : db.trains.lookup tid = some train)
    (hfind : findIdxElem (fun p => p.date == date && p.product_id == sid)
      train.products = some ie)
    (hq : ie.2.quantity < quantity) :
    create_train_order ctx db tid sid uid date quantity =
      (.insufficient ie.2.quantity quantity, db) := by
  simp only [create_train_order, if_neg hassert, hlk, hfind]
  simp [hq]

/-- With sufficient seat inventory, `create_train_order` decrements the
train's total catalog quantity by exactly the requested amount. -/
lemma create_train_order_decrements (ctx : ToolCtx) (db : DomainDB)
    (tid sid uid date : String) (quantity : ℤ) (train : Store) (ie : ℕ × Product)
    (hassert : ¬(tid = "" ∨ sid = "" ∨ uid = "" ∨ date = "" ∨ ¬ quantity > 0
      ∨ ¬ ctx.dateFormatOk date ∨ uid ≠ db.user_id))
    (hlk : db.trains.lookup tid = some train)
    (hfind : findIdxElem (fun p => p.date == date && p.product_id == sid)
      train.products = some ie)
    (hq : ¬ ie.2.quantity < quantity) :
    ∃ train2,
      (create_train_order ctx db tid sid uid date quantity).2.trains.lookup tid
        = some train2 ∧
      storeQty train2 = storeQty train - quantity := by
  obtain ⟨hi, hgd, _⟩ := findIdxElem_spec _ train.products ie.1 ie.2 hfind
  refine ⟨⟨modifyIdx train.products ie.1
    (fun p => {p with quantity := p.quantity - quantity})⟩, ?_, ?_⟩
  · simp only [create_train_order, if_neg hassert, hlk, hfind, if_neg hq]
    split <;>
    · rw [(addOrderRes_stores _ _).2.2.2]
      exact lookup_setAssoc_of_some db.trains tid _ train hlk
  · unfold storeQty
    exact modifyIdx_quantity_sum quantity train.products ie.1 hi

/-- No cancel tool ever touches a product catalog. -/
lemma cancelOtaOrder_stores (otype : String) (ctx : ToolCtx) (db : DomainDB)
    (oid uid : String) :
    (cancelOtaOrder otype ctx db oid uid).2.hotels = db.hotels ∧
    (cancelOtaOrder otype ctx db oid uid).2.attractions = db.attractions ∧
    (cancelOtaOrder otype ctx db oid uid).2.flights = db.flights ∧
    (cancelOtaOrder otype ctx db oid uid).2.trains = db.trains := by
  unfold cancelOtaOrder
  split
  · exact ⟨rfl, rfl, rfl, rfl⟩
  · split
    · exact ⟨rfl, rfl, rfl, rfl⟩
    · split
      · exact ⟨rfl, rfl, rfl, rfl⟩
      · split
        · exact ⟨rfl, rfl, rfl, rfl⟩
        · split
          · exact ⟨rfl, rfl, rfl, rfl⟩
          · dsimp only
            split
            · exact modifyOrderRes_stores db _
            · exact modifyOrderRes_stores db _

/-- **C7.** For hotel/attraction/flight/train products: every `create_*`
order tool leaves all catalog quantities non-negative (it decrements only
after checking sufficiency); the train create (representative of the
dated-product creates) refuses with an insufficient-inventory result and an
unchanged database when the available quantity is too small, and otherwise
decrements the train's catalog quantity by exactly the requested amount;
and the cancel tools never change any product catalog (inventory is not
re-credited on cancellation). -/
theorem create_checks_inventory_and_cancel_never_recredits
    (ctx : ToolCtx) (db : DomainDB) (hnn : dbNonneg db) :
    (∀ hid rid uid, dbNonneg (create_hotel_order ctx db hid rid uid).2) ∧
    (∀ aid tid uid date q, dbNonneg (create_attraction_order ctx db aid tid uid date q).2) ∧
    (∀ fid sid uid date q, dbNonneg (create_flight_order ctx db fid sid uid date q).2) ∧
    (∀ tid sid uid date q, dbNonneg (create_train_order ctx db tid sid uid date q).2) ∧
    (∀ tid sid uid date quantity train ie,
      ¬(tid = "" ∨ sid = "" ∨ uid = "" ∨ date = "" ∨ ¬ quantity > 0
        ∨ ¬ ctx.dateFormatOk date ∨ uid ≠ db.user_id) →
      db.trains.lookup tid = some train →
      findIdxElem (fun p => p.date == date && p.product_id == sid)
        train.products = some ie →
      ((ie.2.quantity < quantity →
        create_train_order ctx db tid sid uid date quantity =
          (.insufficient ie.2.quantity quantity, db)) ∧
      (¬ ie.2.quantity < quantity →
        ∃ train2,
          (create_train_order ctx db tid sid uid date quantity).2.trains.lookup tid
            = some train2 ∧
          storeQty train2 = storeQty train - quantity))) ∧
    (∀ otype oid uid,
      (cancelOtaOrder otype ctx db oid uid).2.hotels = db.hotels ∧
      (cancelOtaOrder otype ctx db oid uid).2.attractions = db.attractions ∧
      (cancelOtaOrder otype ctx db oid uid).2.flights = db.flights ∧
      (cancelOtaOrder otype ctx db oid uid).2.trains = db.trains) := by
  refine ⟨fun hid rid uid => create_hotel_order_nonneg ctx db hid rid uid hnn,
    fun aid tid uid date q => create_attraction_order_nonneg ctx db aid tid uid date q hnn,
    fun fid sid uid date q => create_flight_order_nonneg ctx db fid sid uid date q hnn,
    fun tid sid uid date q => create_train_order_nonneg ctx db tid sid uid date q hnn,
    fun tid sid uid date quantity train ie hassert hlk hfind =>
      ⟨fun hq => create_train_order_insufficient ctx db tid sid uid date quantity
        train ie hassert hlk hfind hq,
      fun hq => create_train_order_decrements ctx db tid sid uid date quantity
        train ie hassert hlk hfind hq⟩,
    fun otype oid uid => cancelOtaOrder_stores otype ctx db oid uid⟩

/-- Witness for C7: a train with two seats; requesting five is refused with
the database unchanged, requesting two leaves a total quantity of zero. -/
theorem create_checks_inventory_witness :
    create_train_order ⟨"t1", fun _ => "", "0", fun _ => true⟩
      ⟨"U1", [], [], [], [], [("T1", ⟨[⟨"S1", 100, 2, "2025-07-01", "second"⟩]⟩)]⟩
      "T1" "S1" "U1" "2025-07-01" 5 =
      (.insufficient 2 5,
        ⟨"U1", [], [], [], [], [("T1", ⟨[⟨"S1", 100, 2, "2025-07-01", "second"⟩]⟩)]⟩) ∧
    ∃ train2,
      (create_train_order ⟨"t1", fun _ => "", "0", fun _ => true⟩
        ⟨"U1", [], [], [], [], [("T1", ⟨[⟨"S1", 100, 2, "2025-07-01", "second"⟩]⟩)]⟩
        "T1" "S1" "U1" "2025-07-01" 2).2.trains.lookup "T1" = some train2 ∧
      storeQty train2 =
        storeQty ⟨[⟨"S1", 100, 2, "2025-07-01", "second"⟩]⟩ - 2 := by
  have h5 := (create_checks_inventory_and_cancel_never_recredits
    ⟨"t1", fun _ => "", "0", fun _ => true⟩
    ⟨"U1", [], [], [], [], [("T1", ⟨[⟨"S1", 100, 2, "2025-07-01", "second"⟩]⟩)]⟩
    (by unfold dbNonneg tableNonneg storeNonneg; decide)).2.2.2.2.1
    "T1" "S1" "U1" "2025-07-01" 5
    ⟨[⟨"S1", 100, 2, "2025-07-01", "second"⟩]⟩
    (0, ⟨"S1", 100, 2, "2025-07-01", "second"⟩) (by decide) rfl rfl
  have h2 := (create_checks_inventory_and_cancel_never_recredits
    ⟨"t1", fun _ => "", "0", fun _ => true⟩
    ⟨"U1", [], [], [], [], [("T1", ⟨[⟨"S1", 100, 2, "2025-07-01", "second"⟩]⟩)]⟩
    (by unfold dbNonneg tableNonneg storeNonneg; decide)).2.2.2.2.1
    "T1" "S1" "U1" "2025-07-01" 2
    ⟨[⟨"S1", 100, 2, "2025-07-01", "second"⟩]⟩
    (0, ⟨"S1", 100, 2, "2025-07-01", "second"⟩) (by decide) rfl rfl
  exact ⟨h5.1 (by decide), h2.2 (by decide)⟩

end Vita
